import Mathlib

/-!
Fluctus: the path tracer's frame loop, input handling and saved state.

A shallow embedding of `src/tracer.cpp`.  The `Tracer` object becomes a record, every
member function a pure function on that record.  Calls into the compute backend
(`clctx->...`) and the window (`window->...`) are appended to a call log held in the
record, so the order in which a frame enqueues its stages can be stated.

Conventions of the embedding.

* `float` and `double` values are modelled by the rationals they denote (finite values
  only; NaN and the infinities are outside the model).  An arithmetic operation is the
  exact operation followed by the rounding function of the format, which is a
  parameter (`World.rnd` for binary32, `World.rndD` for binary64).  Comparisons,
  negation, `min` and `max` are exact.  Literals that are binary fractions (`360.0f`,
  `1.0f`, `0.5f`) are written as such; the others (`0.07f`, `1.05f`) are rounded.
* The 32-bit unsigned members of `RenderParams` and the iteration counter of the tracer
  are natural numbers; `++` and `+ 1` on them wrap at `2^32`.  A C++ condition on such a
  member tests it against zero.
* What the sources of the repository do not contain (the settings, the scene loader,
  the rotation helpers, the declaration of constants) is a field of `World`.
* Text printed on `std::cout` is not part of the model.
-/

namespace Fluctus

/-! ## Floating point values -/

/-- The value of a finite `float` or `double`. -/
abbrev Flt := ℚ

/-- Image of `FireRays::float2`. -/
structure Vec2 where
  x : Flt
  y : Flt
  deriving DecidableEq, Repr

/-- Image of `FireRays::float3`: the members `readVec` and `writeVec` touch. -/
structure Vec3 where
  x : Flt
  y : Flt
  z : Flt
  deriving DecidableEq, Repr

/-- Image of `Camera` (`geom.h`), with the members `tracer.cpp` uses. -/
structure Camera where
  pos : Vec3
  dir : Vec3
  right : Vec3
  up : Vec3
  fov : Flt
  deriving DecidableEq, Repr

/-- Image of the area light member of `RenderParams`. -/
structure AreaLight where
  N : Vec3
  pos : Vec3
  right : Vec3
  up : Vec3
  E : Vec3
  size : Vec2
  deriving DecidableEq, Repr

/-- Image of `RenderParams` (`geom.h`), with the members `tracer.cpp` uses. -/
structure RenderParams where
  width : Nat
  height : Nat
  n_lights : Nat
  n_objects : Nat
  n_tris : Nat
  useEnvMap : Nat
  useAreaLight : Nat
  envMapStrength : Flt
  flashlight : Nat
  maxBounces : Nat
  sampleImpl : Nat
  sampleExpl : Nat
  worldRadius : Flt
  camera : Camera
  areaLight : AreaLight
  deriving DecidableEq, Repr

/-- Modulus of `cl_uint`. -/
def UINT_MOD : Nat := 2 ^ 32

/-! ## The world outside `tracer.cpp` -/

/-- Everything `tracer.cpp` takes from code that is not among the sources. -/
structure World where
  /-- Rounding of an exact result to binary32. -/
  rnd : ℚ → ℚ
  /-- Rounding of an exact result to binary64. -/
  rndD : ℚ → ℚ
  /-- Reinterpretation of four bytes of a file as a `float`. -/
  floatOfBits : Nat → Flt
  /-- Reinterpretation of the four bytes of a `float` as a `cl_uint`. -/
  bitsOfFloat : Flt → Nat
  /-- Value of `Settings::getInstance().getRenderScale()`. -/
  renderScale : Flt
  /-- Value of `Settings::getInstance().getShortcuts()`. -/
  shortcuts : Nat → Option String
  /-- Value of `Scene(file).hashString()`. -/
  hashString : String → String
  /-- Value of `envMap && envMap->valid()` for `Scene(file).getEnvMap()`. -/
  envMapValid : String → Bool
  /-- Value of `Scene(file).getTriangles().size()`. -/
  triangleCount : String → Nat
  /-- Value of `length(bounds.max - bounds.min)` for the hierarchy built over the scene. -/
  boundsDiagonal : String → Flt
  /-- Rows of `rotation(float3(1,0,0), toRad(y)) * rotation(float3(0,1,0), toRad(x))`,
  given `y` and `x`. -/
  rotationRows : Flt → Flt → Vec3 × Vec3 × Vec3
  /-- Value of `sizeof(test_lights) / sizeof(PointLight)`. -/
  n_lights : Nat
  /-- Value of `sizeof(test_spheres) / sizeof(Sphere)`. -/
  n_objects : Nat

/-- Float addition. -/
def fadd (W : World) (a b : Flt) : Flt := W.rnd (a + b)

/-- Float subtraction. -/
def fsub (W : World) (a b : Flt) : Flt := W.rnd (a - b)

/-- Float multiplication. -/
def fmul (W : World) (a b : Flt) : Flt := W.rnd (a * b)

/-- Float division. -/
def fdiv (W : World) (a b : Flt) : Flt := W.rnd (a / b)

/-- Image of `static_cast<unsigned int>` on a float: truncation. -/
def toUInt (a : Flt) : Nat := ⌊a⌋.toNat

/-- Componentwise `a + b` on `float3`. -/
def Vec3.add (W : World) (a b : Vec3) : Vec3 :=
  ⟨fadd W a.x b.x, fadd W a.y b.y, fadd W a.z b.z⟩

/-- Componentwise `a - b` on `float3`. -/
def Vec3.sub (W : World) (a b : Vec3) : Vec3 :=
  ⟨fsub W a.x b.x, fsub W a.y b.y, fsub W a.z b.z⟩

/-- Scaling `c * v` of a `float3`. -/
def Vec3.scale (W : World) (c : Flt) (v : Vec3) : Vec3 :=
  ⟨fmul W c v.x, fmul W c v.y, fmul W c v.z⟩

/-- Division `v / c` of a `float3` by a scalar. -/
def Vec3.divs (W : World) (v : Vec3) (c : Flt) : Vec3 :=
  ⟨fdiv W v.x c, fdiv W v.y c, fdiv W v.z c⟩

/-- Negation `-v` of a `float3`. -/
def Vec3.neg (v : Vec3) : Vec3 := ⟨-v.x, -v.y, -v.z⟩

/-- Componentwise `a + b` on `float2`. -/
def Vec2.add (W : World) (a b : Vec2) : Vec2 := ⟨fadd W a.x b.x, fadd W a.y b.y⟩

/-- Componentwise `a - b` on `float2`. -/
def Vec2.sub (W : World) (a b : Vec2) : Vec2 := ⟨fsub W a.x b.x, fsub W a.y b.y⟩

/-- Scaling `v * c` of a `float2`. -/
def Vec2.scale (W : World) (v : Vec2) (c : Flt) : Vec2 := ⟨fmul W v.x c, fmul W v.y c⟩

/-- Division `v / c` of a `float2` by a scalar. -/
def Vec2.divs (W : World) (v : Vec2) (c : Flt) : Vec2 := ⟨fdiv W v.x c, fdiv W v.y c⟩

/-! ## Calls into the backend and the window -/

/-- A call `tracer.cpp` makes on `clctx` or `window`, with its arguments. -/
inductive Call where
  | updateParams (p : RenderParams)
  | enqueueResetKernel (p : RenderParams)
  | enqueueRayGenKernel (p : RenderParams)
  | enqueueNextVertexKernel (p : RenderParams)
  | enqueueExplSampleKernel (p : RenderParams) (iteration : Nat)
  | enqueueSplatPreviewKernel (p : RenderParams)
  | enqueueSplatKernel (p : RenderParams) (frontBuffer : Int)
  | enqueueMegaKernel (p : RenderParams) (frontBuffer : Int) (iteration : Nat)
  | finishQueue
  | drawPixelBuffer
  | drawTexture (frontBuffer : Int)
  | getStats
  | resetStats
  | fetchStatsAsync
  | saveImage (fileName : String) (p : RenderParams) (useMK : Bool)
  | createEnvMap (sceneFile : String)
  | uploadSceneData (sceneFile : String)
  | createTextures
  | createPBO
  | setupPixelStorage
  deriving DecidableEq, Repr

/-! ## Files -/

/-- One item of a state file, as `write(stream, item)` stores it. -/
inductive Cell where
  | flt (v : Flt)
  | uint (v : Nat)
  deriving DecidableEq, Repr

/-- The part of the file system `tracer.cpp` reads and writes. -/
structure Disk where
  /-- The state files, by path. -/
  states : List (String × List Cell)
  /-- Whether a state file can be opened for writing. -/
  statesWritable : Bool
  /-- The paths of the hierarchy files. -/
  hierarchies : List String
  deriving DecidableEq, Repr

/-! ## The tracer -/

/-- Image of `bool mouseButtonState[3]`. -/
structure Buttons where
  b0 : Bool
  b1 : Bool
  b2 : Bool
  deriving DecidableEq, Repr

/-- The members of `Tracer`, the clock of `printStats`, the disk and the call log. -/
structure Tracer where
  params : RenderParams
  cameraRotation : Vec2
  lastCursorPos : Vec2
  cameraSpeed : Flt
  mouseButtonState : Buttons
  paramsUpdatePending : Bool
  useMK : Bool
  hasEnvMap : Bool
  iteration : Nat
  frontBuffer : Int
  /-- The file the object behind `scene` was loaded from. -/
  scene : String
  sceneHash : String
  /-- The `static double lastPrinted` of `printStats`. -/
  lastPrinted : Flt
  disk : Disk
  log : List Call
  deriving DecidableEq, Repr

/-- Append a call to the log. -/
def call (c : Call) (s : Tracer) : Tracer := { s with log := s.log ++ [c] }

/-! ## Camera and lights -/

/-- Image of `Tracer::updateCamera`. -/
def updateCamera (W : World) (s : Tracer) : Tracer :=
  let s := if s.cameraRotation.x < 0 then
    { s with cameraRotation.x := fadd W s.cameraRotation.x 360 } else s
  let s := if s.cameraRotation.y < 0 then
    { s with cameraRotation.y := fadd W s.cameraRotation.y 360 } else s
  let s := if s.cameraRotation.x > 360 then
    { s with cameraRotation.x := fsub W s.cameraRotation.x 360 } else s
  let s := if s.cameraRotation.y > 360 then
    { s with cameraRotation.y := fsub W s.cameraRotation.y 360 } else s
  let rot := W.rotationRows s.cameraRotation.y s.cameraRotation.x
  { s with
    params.camera.right := rot.1
    params.camera.up := rot.2.1
    params.camera.dir := Vec3.neg rot.2.2 }

/-- Image of `Tracer::initCamera`. -/
def initCamera (s : Tracer) : Tracer :=
  { s with
    params.camera := {
      pos := ⟨0, 1, 7 / 2⟩
      right := ⟨1, 0, 0⟩
      up := ⟨0, 1, 0⟩
      dir := ⟨0, 0, -1⟩
      fov := 60 }
    cameraRotation := ⟨0, 0⟩
    paramsUpdatePending := true }

/-- Image of `Tracer::initAreaLight`. -/
def initAreaLight (W : World) (s : Tracer) : Tracer :=
  { s with
    params.areaLight.E := Vec3.scale W 200 ⟨1, 1, 1⟩
    params.areaLight.right := ⟨0, 0, -1⟩
    params.areaLight.up := ⟨0, 1, 0⟩
    params.areaLight.N := ⟨-1, 0, 0⟩
    params.areaLight.pos := ⟨1, 1, 0⟩
    params.areaLight.size := ⟨1 / 2, 1 / 2⟩
    paramsUpdatePending := true }

/-- Image of `Tracer::updateAreaLight`. -/
def updateAreaLight (W : World) (s : Tracer) : Tracer :=
  let s := { s with params.areaLight.right := s.params.camera.right }
  let s := { s with params.areaLight.up := s.params.camera.up }
  let s := { s with params.areaLight.N := s.params.camera.dir }
  { s with params.areaLight.pos :=
      Vec3.sub W s.params.camera.pos (Vec3.scale W (W.rnd (1 / 100)) s.params.camera.dir) }

/-- Image of `Tracer::toggleSamplingMode`. -/
def toggleSamplingMode (s : Tracer) : Tracer :=
  if s.params.sampleImpl ≠ 0 ∧ s.params.sampleExpl ≠ 0 then
    { s with params.sampleImpl := 0 }
  else if s.params.sampleExpl ≠ 0 then
    { s with params.sampleExpl := 0, params.sampleImpl := 1 }
  else
    { s with params.sampleExpl := 1 }

/-- Image of `Tracer::toggleLightSourceMode`. -/
def toggleLightSourceMode (s : Tracer) : Tracer :=
  if !s.hasEnvMap then
    s
  else if s.params.useAreaLight ≠ 0 ∧ s.params.useEnvMap ≠ 0 then
    { s with params.useAreaLight := 0 }
  else if s.params.useEnvMap ≠ 0 then
    { s with params.useEnvMap := 0, params.useAreaLight := 1 }
  else
    { s with params.useEnvMap := 1 }

/-! ## Saved state -/

/-- Image of `enum class StateIO`. -/
inductive StateIO where
  | WRITE
  | READ
  deriving DecidableEq, Repr

/-- The `std::fstream` of `iterateStateItems`: in `WRITE` mode the items written so
far, in `READ` mode the items not yet consumed. -/
structure Stream where
  cells : List Cell
  deriving DecidableEq, Repr

/-- Path of the state file of a scene. -/
def statePath (sceneHash : String) : String := "data/states/state_" ++ sceneHash ++ ".dat"

/-- Content of the file at `path`, when there is one. -/
def Disk.find (d : Disk) (path : String) : Option (List Cell) := d.states.lookup path

/-- Disk after the file at `path` has been replaced by `cells`. -/
def Disk.store (d : Disk) (path : String) (cells : List Cell) : Disk :=
  { d with states := (path, cells) :: d.states.filter (fun e => e.1 ≠ path) }

/-- Image of the `std::fstream` constructor with the mode flags of
`iterateStateItems`; `none` when `stream.good()` does not hold. -/
def Stream.open (mode : StateIO) (path : String) (d : Disk) : Option Stream :=
  match mode with
  | .WRITE => if d.statesWritable then some ⟨[]⟩ else none
  | .READ => (d.find path).map Stream.mk

/-- Disk once the stream is closed. -/
def Stream.close (mode : StateIO) (path : String) (st : Stream) (d : Disk) : Disk :=
  match mode with
  | .WRITE => d.store path st.cells
  | .READ => d

/-- A `float` read from an item of a file. -/
def Cell.toFlt (W : World) : Cell → Flt
  | .flt v => v
  | .uint n => W.floatOfBits n

/-- A `cl_uint` read from an item of a file. -/
def Cell.toUInt (W : World) : Cell → Nat
  | .uint n => n
  | .flt v => W.bitsOfFloat v

/-- A member that `iterateStateItems` names: how it is written and how it is read. -/
structure Item where
  get : Tracer → Cell
  set : World → Cell → Tracer → Tracer

/-- A `float` member. -/
def Item.ofFlt (get : Tracer → Flt) (set : Flt → Tracer → Tracer) : Item :=
  ⟨fun s => .flt (get s), fun W c s => set (c.toFlt W) s⟩

/-- A `cl_uint` member. -/
def Item.ofUInt (get : Tracer → Nat) (set : Nat → Tracer → Tracer) : Item :=
  ⟨fun s => .uint (get s), fun W c s => set (c.toUInt W) s⟩

/-- Modelled from the spec: the helpers `write(stream, item)` and `read(stream, item)`
of `utils.h`, which is not among the sources, behind the macro `rw(item)`.  Writing
appends the item; reading takes the next item of the file and leaves the member as it
is when the file has ended. -/
def rw (W : World) (mode : StateIO) (it : Item) (p : Stream × Tracer) : Stream × Tracer :=
  match mode with
  | .WRITE => (⟨p.1.cells ++ [it.get p.2]⟩, p.2)
  | .READ =>
    match p.1.cells with
    | [] => p
    | c :: rest => (⟨rest⟩, it.set W c p.2)

/-- The three items of `writeVec` and `readVec`, behind the macro `rwVec(item)`. -/
def vecItems (get : Tracer → Vec3) (set : Vec3 → Tracer → Tracer) : List Item :=
  [ Item.ofFlt (fun s => (get s).x) (fun v s => set { get s with x := v } s),
    Item.ofFlt (fun s => (get s).y) (fun v s => set { get s with y := v } s),
    Item.ofFlt (fun s => (get s).z) (fun v s => set { get s with z := v } s) ]

/-- The members of the body of `iterateStateItems`, in its order. -/
def stateItems : List Item :=
  -- Camera
  [ Item.ofFlt (fun s => s.cameraRotation.x) (fun v s => { s with cameraRotation.x := v }),
    Item.ofFlt (fun s => s.cameraRotation.y) (fun v s => { s with cameraRotation.y := v }),
    Item.ofFlt (fun s => s.cameraSpeed) (fun v s => { s with cameraSpeed := v }),
    Item.ofFlt (fun s => s.params.camera.fov) (fun v s => { s with params.camera.fov := v }) ]
  ++ vecItems (fun s => s.params.camera.dir) (fun v s => { s with params.camera.dir := v })
  ++ vecItems (fun s => s.params.camera.pos) (fun v s => { s with params.camera.pos := v })
  ++ vecItems (fun s => s.params.camera.right) (fun v s => { s with params.camera.right := v })
  ++ vecItems (fun s => s.params.camera.up) (fun v s => { s with params.camera.up := v })
  -- Lights
  ++ vecItems (fun s => s.params.areaLight.N) (fun v s => { s with params.areaLight.N := v })
  ++ vecItems (fun s => s.params.areaLight.pos)
      (fun v s => { s with params.areaLight.pos := v })
  ++ vecItems (fun s => s.params.areaLight.right)
      (fun v s => { s with params.areaLight.right := v })
  ++ vecItems (fun s => s.params.areaLight.up) (fun v s => { s with params.areaLight.up := v })
  ++ vecItems (fun s => s.params.areaLight.E) (fun v s => { s with params.areaLight.E := v })
  ++ [ Item.ofFlt (fun s => s.params.areaLight.size.x)
        (fun v s => { s with params.areaLight.size.x := v }),
       Item.ofFlt (fun s => s.params.areaLight.size.y)
        (fun v s => { s with params.areaLight.size.y := v }),
       Item.ofFlt (fun s => s.params.envMapStrength)
        (fun v s => { s with params.envMapStrength := v }),
       -- Sampling parameters
       Item.ofUInt (fun s => s.params.maxBounces) (fun v s => { s with params.maxBounces := v }),
       Item.ofUInt (fun s => s.params.useAreaLight)
        (fun v s => { s with params.useAreaLight := v }),
       Item.ofUInt (fun s => s.params.useEnvMap) (fun v s => { s with params.useEnvMap := v }),
       Item.ofUInt (fun s => s.params.sampleExpl) (fun v s => { s with params.sampleExpl := v }),
       Item.ofUInt (fun s => s.params.sampleImpl) (fun v s => { s with params.sampleImpl := v }) ]

/-- Image of `Tracer::iterateStateItems`. -/
def iterateStateItems (W : World) (mode : StateIO) (s : Tracer) : Tracer :=
  let path := statePath s.sceneHash
  match Stream.open mode path s.disk with
  | some stream =>
    let p := stateItems.foldl (fun p it => rw W mode it p) (stream, s)
    { p.2 with disk := Stream.close mode path p.1 p.2.disk }
  | none => s

/-- Image of `Tracer::saveState`. -/
def saveState (W : World) (s : Tracer) : Tracer := iterateStateItems W .WRITE s

/-- Image of `Tracer::loadState`. -/
def loadState (W : World) (s : Tracer) : Tracer := iterateStateItems W .READ s

/-! ## Scenes -/

/-- What the outside answers during one call of a handler. -/
structure Oracle where
  /-- Result of `tinyfd_openFileDialog`, `none` for `NULL`. -/
  selected : Option String
  /-- Result of `std::time(nullptr)`. -/
  epoch : Nat
  deriving DecidableEq, Repr

/-- Image of `Tracer::saveImage`. -/
def saveImage (o : Oracle) (s : Tracer) : Tracer :=
  let fileName := "output_" ++ toString o.epoch ++ ".png"
  call (.saveImage fileName s.params s.useMK) s

/-- Image of `Tracer::selectScene`. -/
def selectScene (W : World) (o : Oracle) (file : String) (s : Tracer) : Tracer :=
  let file := if file = "" then
    (match o.selected with
      | some selected => selected
      | none => "assets/teapot.ply")
    else file
  { s with scene := file, sceneHash := W.hashString file }

/-- Image of `Tracer::initEnvMap`. -/
def initEnvMap (W : World) (s : Tracer) : Tracer :=
  if W.envMapValid s.scene then
    call (.createEnvMap s.scene)
      { s with params.useEnvMap := 1, hasEnvMap := true }
  else s

/-- Image of `Tracer::loadHierarchy` and of `Tracer::constructHierarchy`, which set the
same member. -/
def setTriangles (W : World) (s : Tracer) : Tracer :=
  { s with params.n_tris := W.triangleCount s.scene % UINT_MOD }

/-- Image of `Tracer::initHierarchy`. -/
def initHierarchy (W : World) (s : Tracer) : Tracer :=
  let hashFile := "data/hierarchies/hierarchy_" ++ s.sceneHash ++ ".bin"
  if hashFile ∈ s.disk.hierarchies then
    setTriangles W s
  else
    let s := setTriangles W s
    { s with disk.hierarchies := hashFile :: s.disk.hierarchies }

/-- Image of `Tracer::init`. -/
def init (W : World) (o : Oracle) (width height : Int) (sceneFile : String) (s : Tracer) :
    Tracer :=
  let renderScale := W.renderScale
  let s := { s with
    params.width := toUInt (fmul W (W.rnd width) renderScale)
    params.height := toUInt (fmul W (W.rnd height) renderScale)
    params.n_lights := W.n_lights
    params.n_objects := W.n_objects
    params.useEnvMap := 0
    params.useAreaLight := 1
    params.envMapStrength := 1
    params.flashlight := 0
    params.maxBounces := 4
    params.sampleImpl := 1
    params.sampleExpl := 1 }
  let s := selectScene W o sceneFile s
  let s := loadState W s
  let s := initEnvMap W s
  let s := initHierarchy W s
  let s := { s with params.worldRadius := fmul W (W.boundsDiagonal s.scene) (1 / 2) }
  call (.uploadSceneData s.scene) s

/-- Image of `Tracer::quickLoadScene`. -/
def quickLoadScene (W : World) (o : Oracle) (key : Nat) (s : Tracer) : Tracer :=
  match W.shortcuts key with
  | some file => init W o s.params.width s.params.height file s
  | none => s

/-- Image of `Tracer::resizeBuffers`. -/
def resizeBuffers (s : Tracer) : Tracer :=
  let s := call .createTextures s
  let s := call .createPBO s
  let s := call .setupPixelStorage s
  { s with paramsUpdatePending := true }

/-! ## Keys

The key and button codes are those of `GLFW/glfw3.h`. -/

def GLFW_RELEASE : Int := 0
def GLFW_PRESS : Int := 1
def GLFW_MOUSE_BUTTON_LEFT : Int := 0
def GLFW_MOUSE_BUTTON_RIGHT : Int := 1
def GLFW_MOUSE_BUTTON_MIDDLE : Int := 2
def GLFW_KEY_SPACE : Int := 32
def GLFW_KEY_COMMA : Int := 44
def GLFW_KEY_PERIOD : Int := 46
def GLFW_KEY_1 : Int := 49
def GLFW_KEY_2 : Int := 50
def GLFW_KEY_3 : Int := 51
def GLFW_KEY_4 : Int := 52
def GLFW_KEY_5 : Int := 53
def GLFW_KEY_7 : Int := 55
def GLFW_KEY_8 : Int := 56
def GLFW_KEY_9 : Int := 57
def GLFW_KEY_A : Int := 65
def GLFW_KEY_D : Int := 68
def GLFW_KEY_F : Int := 70
def GLFW_KEY_H : Int := 72
def GLFW_KEY_I : Int := 73
def GLFW_KEY_K : Int := 75
def GLFW_KEY_L : Int := 76
def GLFW_KEY_M : Int := 77
def GLFW_KEY_R : Int := 82
def GLFW_KEY_S : Int := 83
def GLFW_KEY_W : Int := 87
def GLFW_KEY_X : Int := 88
def GLFW_KEY_Z : Int := 90
def GLFW_KEY_RIGHT : Int := 262
def GLFW_KEY_LEFT : Int := 263
def GLFW_KEY_DOWN : Int := 264
def GLFW_KEY_UP : Int := 265
def GLFW_KEY_PAGE_UP : Int := 266
def GLFW_KEY_PAGE_DOWN : Int := 267
def GLFW_KEY_F1 : Int := 290
def GLFW_KEY_F2 : Int := 291
def GLFW_KEY_F3 : Int := 292
def GLFW_KEY_F5 : Int := 294

/-- Image of the tail of the macro `matchInit(key, expr)`: after `expr`,
`paramsUpdatePending = true`. -/
def matchInit (s : Tracer) : Tracer := { s with paramsUpdatePending := true }

/-- Image of the tail of the macro `matchKeep(key, expr)`: nothing after `expr`. -/
def matchKeep (s : Tracer) : Tracer := s

/-- Image of `Tracer::handleKeypress`. -/
def handleKeypress (W : World) (o : Oracle) (key : Int) (s : Tracer) : Tracer :=
  -- Force init
  if key = GLFW_KEY_1 then matchInit (quickLoadScene W o 1 s)
  else if key = GLFW_KEY_2 then matchInit (quickLoadScene W o 2 s)
  else if key = GLFW_KEY_3 then matchInit (quickLoadScene W o 3 s)
  else if key = GLFW_KEY_4 then matchInit (quickLoadScene W o 4 s)
  else if key = GLFW_KEY_5 then matchInit (quickLoadScene W o 5 s)
  else if key = GLFW_KEY_L then matchInit (init W o s.params.width s.params.height "" s)
  else if key = GLFW_KEY_H then matchInit (toggleLightSourceMode s)
  else if key = GLFW_KEY_7 then matchInit { s with useMK := !s.useMK }
  else if key = GLFW_KEY_F1 then matchInit (initCamera s)
  else if key = GLFW_KEY_F3 then matchInit (loadState W s)
  else if key = GLFW_KEY_SPACE then matchInit (updateAreaLight W s)
  else if key = GLFW_KEY_I then
    matchInit { s with params.maxBounces := (s.params.maxBounces + 1) % UINT_MOD }
  else if key = GLFW_KEY_K then
    matchInit (if s.params.maxBounces > 0 then
      { s with params.maxBounces := s.params.maxBounces - 1 } else s)
  else if key = GLFW_KEY_M then matchInit (toggleSamplingMode s)
  -- Don't force init
  else if key = GLFW_KEY_F2 then matchKeep (saveState W s)
  else if key = GLFW_KEY_F5 then matchKeep (saveImage o s)
  else s

/-- Image of the macro `check(key, expr)` of `pollKeys`. -/
def check (keyPressed : Int → Bool) (key : Int) (expr : Tracer → Tracer) (s : Tracer) :
    Tracer :=
  if keyPressed key then { expr s with paramsUpdatePending := true } else s

/-- The step `cameraSpeed * 0.07f * v` of `pollKeys`. -/
def stride (W : World) (s : Tracer) (v : Vec3) : Vec3 :=
  Vec3.scale W (fmul W s.cameraSpeed (W.rnd (7 / 100))) v

/-- The invocations `check(key, expr)` of `pollKeys`, in its order: the key and the effect
of `expr`. -/
def pollChecks (W : World) : List (Int × (Tracer → Tracer)) :=
  [ (GLFW_KEY_W, fun s =>
      { s with params.camera.pos :=
          Vec3.add W s.params.camera.pos (stride W s s.params.camera.dir) }),
    (GLFW_KEY_A, fun s =>
      { s with params.camera.pos :=
          Vec3.sub W s.params.camera.pos (stride W s s.params.camera.right) }),
    (GLFW_KEY_S, fun s =>
      { s with params.camera.pos :=
          Vec3.sub W s.params.camera.pos (stride W s s.params.camera.dir) }),
    (GLFW_KEY_D, fun s =>
      { s with params.camera.pos :=
          Vec3.add W s.params.camera.pos (stride W s s.params.camera.right) }),
    (GLFW_KEY_R, fun s =>
      { s with params.camera.pos :=
          Vec3.add W s.params.camera.pos (stride W s s.params.camera.up) }),
    (GLFW_KEY_F, fun s =>
      { s with params.camera.pos :=
          Vec3.sub W s.params.camera.pos (stride W s s.params.camera.up) }),
    (GLFW_KEY_UP, fun s => { s with cameraRotation.y := fsub W s.cameraRotation.y 1 }),
    (GLFW_KEY_DOWN, fun s => { s with cameraRotation.y := fadd W s.cameraRotation.y 1 }),
    (GLFW_KEY_LEFT, fun s => { s with cameraRotation.x := fsub W s.cameraRotation.x 1 }),
    (GLFW_KEY_RIGHT, fun s => { s with cameraRotation.x := fadd W s.cameraRotation.x 1 }),
    (GLFW_KEY_PERIOD, fun s =>
      { s with params.camera.fov := min (fadd W s.params.camera.fov 1) 175 }),
    (GLFW_KEY_COMMA, fun s =>
      { s with params.camera.fov := max (fsub W s.params.camera.fov 1) 5 }),
    (GLFW_KEY_8, fun s =>
      { s with params.areaLight.size :=
          Vec2.divs W s.params.areaLight.size (W.rnd (11 / 10)) }),
    (GLFW_KEY_9, fun s =>
      { s with params.areaLight.size :=
          Vec2.scale W s.params.areaLight.size (W.rnd (11 / 10)) }),
    (GLFW_KEY_PAGE_DOWN, fun s =>
      { s with params.areaLight.E :=
          Vec3.divs W s.params.areaLight.E (W.rnd (21 / 20)) }),
    (GLFW_KEY_PAGE_UP, fun s =>
      { s with params.areaLight.E :=
          Vec3.scale W (W.rnd (21 / 20)) s.params.areaLight.E }),
    (GLFW_KEY_X, fun s =>
      { s with params.envMapStrength := fmul W s.params.envMapStrength (W.rnd (21 / 20)) }),
    (GLFW_KEY_Z, fun s =>
      { s with params.envMapStrength := fdiv W s.params.envMapStrength (W.rnd (21 / 20)) }) ]

/-- Image of `Tracer::pollKeys`; `keyPressed` is `window->keyPressed`. -/
def pollKeys (W : World) (keyPressed : Int → Bool) (s : Tracer) : Tracer :=
  let s := (pollChecks W).foldl (fun s c => check keyPressed c.1 c.2 s) s
  if s.paramsUpdatePending then updateCamera W s else s

/-! ## Mouse -/

/-- Image of `Tracer::handleMouseButton`; `cursor` is `window->getCursorPos()`. -/
def handleMouseButton (cursor : Vec2) (key action : Int) (s : Tracer) : Tracer :=
  if key = GLFW_MOUSE_BUTTON_LEFT then
    let s := if action = GLFW_PRESS then
      { s with lastCursorPos := cursor, mouseButtonState.b0 := true } else s
    if action = GLFW_RELEASE then { s with mouseButtonState.b0 := false } else s
  else if key = GLFW_MOUSE_BUTTON_MIDDLE then
    let s := if action = GLFW_PRESS then { s with mouseButtonState.b1 := true } else s
    if action = GLFW_RELEASE then { s with mouseButtonState.b1 := false } else s
  else if key = GLFW_MOUSE_BUTTON_RIGHT then
    let s := if action = GLFW_PRESS then { s with mouseButtonState.b2 := true } else s
    if action = GLFW_RELEASE then { s with mouseButtonState.b2 := false } else s
  else s

/-- Image of `Tracer::handleCursorPos`; `x` and `y` are doubles. -/
def handleCursorPos (W : World) (x y : Flt) (s : Tracer) : Tracer :=
  if s.mouseButtonState.b0 then
    let newPos : Vec2 := ⟨W.rnd x, W.rnd y⟩
    let delta := Vec2.sub W newPos s.lastCursorPos
    let s := { s with cameraRotation := Vec2.add W s.cameraRotation delta }
    let s := { s with lastCursorPos := newPos }
    let s := updateCamera W s
    { s with paramsUpdatePending := true }
  else s

/-- Image of `Tracer::handleMouseScroll`; `yoffset` is a double. -/
def handleMouseScroll (W : World) (yoffset : Flt) (s : Tracer) : Tracer :=
  let newSpeed := if yoffset > 0 then fmul W s.cameraSpeed (W.rnd (6 / 5))
    else fdiv W s.cameraSpeed (W.rnd (6 / 5))
  { s with cameraSpeed := max (W.rnd (1 / 1000)) (min 1000000 newSpeed) }

/-! ## The frame loop -/

/-- Modelled from the spec: the callbacks the window registers with GLFW
(`window.cpp` is not among the sources).  Each input event runs one public handler of
the tracer, with what the outside answers during that call. -/
inductive Event where
  | keyPress (key : Int) (o : Oracle)
  | mouseButton (key action : Int) (cursor : Vec2)
  | cursorPos (x y : Flt)
  | scroll (yoffset : Flt)
  | framebufferSize
  deriving DecidableEq, Repr

/-- The handler an event runs. -/
def Event.run (W : World) (e : Event) (s : Tracer) : Tracer :=
  match e with
  | .keyPress key o => handleKeypress W o key s
  | .mouseButton key action cursor => handleMouseButton cursor key action s
  | .cursorPos x y => handleCursorPos W x y s
  | .scroll yoffset => handleMouseScroll W yoffset s
  | .framebufferSize => resizeBuffers s

/-- Image of `glfwPollEvents()`: the pending events run their handlers in order. -/
def glfwPollEvents (W : World) (events : List Event) (s : Tracer) : Tracer :=
  events.foldl (fun s e => e.run W s) s

/-- What one call of `Tracer::update` reads from outside. -/
structure FrameInput where
  /-- The events pending at `glfwPollEvents()`. -/
  events : List Event
  /-- Value of `window->keyPressed`. -/
  keyPressed : Int → Bool
  /-- Values `window->getFBSize` stores. -/
  fbWidth : Nat
  fbHeight : Nat
  /-- Value of `glfwGetTime()`. -/
  now : Flt
  /-- `std::time` and the file dialog, for the snapshot of every 1000th frame. -/
  o : Oracle

/-- Image of `printStats`: the counters are reset once `delta > 1.0`. -/
def printStats (W : World) (now : Flt) (s : Tracer) : Tracer :=
  let delta := W.rndD (now - s.lastPrinted)
  if delta > 1 then
    call .resetStats { s with lastPrinted := now }
  else s

/-- The step "Update RenderParams in GPU memory if needed" of `Tracer::update`. -/
def syncParams (W : World) (inp : FrameInput) (s : Tracer) : Tracer :=
  if s.paramsUpdatePending then
    let renderScale := W.renderScale
    let s := { s with params.width := inp.fbWidth, params.height := inp.fbHeight }
    let s := { s with params.width := toUInt (fmul W (W.rnd s.params.width) renderScale) }
    let s := { s with params.height := toUInt (fmul W (W.rnd s.params.height) renderScale) }
    let s := call (.updateParams s.params) s
    let s := { s with paramsUpdatePending := false }
    { s with iteration := 0 }
  else s

/-- The step of `Tracer::update` that enqueues the kernels of the frame. -/
def dispatch (s : Tracer) : Tracer :=
  if s.useMK then
    if s.iteration = 0 then
      let s := call (.enqueueResetKernel s.params) s
      let s := call (.enqueueRayGenKernel s.params) s
      let s := call (.enqueueNextVertexKernel s.params) s
      let s := call (.enqueueExplSampleKernel s.params s.iteration) s
      let s := call (.enqueueNextVertexKernel s.params) s
      let s := call (.enqueueExplSampleKernel s.params ((s.iteration + 1) % UINT_MOD)) s
      call (.enqueueSplatPreviewKernel s.params) s
    else
      let s := call (.enqueueRayGenKernel s.params) s
      let s := call (.enqueueNextVertexKernel s.params) s
      let s := call (.enqueueExplSampleKernel s.params s.iteration) s
      call (.enqueueSplatKernel s.params s.frontBuffer) s
  else
    call (.enqueueMegaKernel s.params s.frontBuffer s.iteration) s

/-- The step "Draw progress to screen" of `Tracer::update`. -/
def present (s : Tracer) : Tracer :=
  if s.useMK then
    call .drawPixelBuffer s
  else
    let s := call (.drawTexture s.frontBuffer) s
    { s with frontBuffer := 1 - s.frontBuffer }

/-- The state in which `Tracer::update` reaches its parameter step: after
`glfwPollEvents()` and `pollKeys()`. -/
def atSync (W : World) (inp : FrameInput) (s : Tracer) : Tracer :=
  pollKeys W inp.keyPressed (glfwPollEvents W inp.events s)

/-- The state in which `Tracer::update` enqueues its kernels. -/
def atDispatch (W : World) (inp : FrameInput) (s : Tracer) : Tracer :=
  syncParams W inp (atSync W inp s)

/-- Image of `Tracer::update`. -/
def update (W : World) (inp : FrameInput) (s : Tracer) : Tracer :=
  -- React to key presses
  let s := glfwPollEvents W inp.events s
  let s := pollKeys W inp.keyPressed s
  -- Update RenderParams in GPU memory if needed
  let s := syncParams W inp s
  let s := dispatch s
  -- Finish command queue
  let s := call .finishQueue s
  -- Draw progress to screen
  let s := present s
  -- Display render statistics
  let s := printStats W inp.now (call .getStats s)
  let s := call .fetchStatsAsync s
  -- Update iteration counter
  let s := { s with iteration := (s.iteration + 1) % UINT_MOD }
  if s.iteration % 1000 = 0 then saveImage inp.o s else s

/-- The calls made between state `s` and the later state `t`. -/
def callsSince (s t : Tracer) : List Call := t.log.drop s.log.length

/-- Whether a call pushes the parameters to the device. -/
def Call.isUpdateParams : Call → Bool
  | .updateParams _ => true
  | _ => false

/-- Number of parameter pushes in a log. -/
def pushes (log : List Call) : Nat := log.countP Call.isUpdateParams

/-! ## Concrete worlds and states -/

/-- A world whose arithmetic is exact: every result is taken to be representable. -/
def exactWorld : World where
  rnd := id
  rndD := id
  floatOfBits := fun n => n
  bitsOfFloat := fun v => ⌊v⌋.toNat
  renderScale := 1
  shortcuts := fun k => if k = 1 then some "assets/teapot.ply" else none
  hashString := fun file => file
  envMapValid := fun _ => false
  triangleCount := fun _ => 12
  boundsDiagonal := fun _ => 2
  rotationRows := fun _ _ => (⟨1, 0, 0⟩, ⟨0, 1, 0⟩, ⟨0, 0, 1⟩)
  n_lights := 1
  n_objects := 1

/-- The parameters `Tracer::init`, `initCamera` and `initAreaLight` set up. -/
def startParams : RenderParams where
  width := 800
  height := 600
  n_lights := 1
  n_objects := 1
  n_tris := 12
  useEnvMap := 1
  useAreaLight := 1
  envMapStrength := 1
  flashlight := 0
  maxBounces := 4
  sampleImpl := 1
  sampleExpl := 1
  worldRadius := 1
  camera := {
    pos := ⟨0, 1, 7 / 2⟩
    dir := ⟨0, 0, -1⟩
    right := ⟨1, 0, 0⟩
    up := ⟨0, 1, 0⟩
    fov := 60 }
  areaLight := {
    N := ⟨-1, 0, 0⟩
    pos := ⟨1, 1, 0⟩
    right := ⟨0, 0, -1⟩
    up := ⟨0, 1, 0⟩
    E := ⟨200, 200, 200⟩
    size := ⟨1 / 2, 1 / 2⟩ }

/-- A tracer as it stands after construction on a scene with an environment map. -/
def startState : Tracer where
  params := startParams
  cameraRotation := ⟨0, 0⟩
  lastCursorPos := ⟨0, 0⟩
  cameraSpeed := 1
  mouseButtonState := ⟨false, false, false⟩
  paramsUpdatePending := true
  useMK := true
  hasEnvMap := true
  iteration := 0
  frontBuffer := 0
  scene := "assets/teapot.ply"
  sceneHash := "teapot"
  lastPrinted := 0
  disk := ⟨[], true, []⟩
  log := []

/-- A frame without input events and without held keys. -/
def quietFrame : FrameInput where
  events := []
  keyPressed := fun _ => false
  fbWidth := 800
  fbHeight := 600
  now := 0
  o := ⟨none, 0⟩

/-- What the proofs use of rounding to nearest in binary32: it is monotone, and the
integers up to `2^24` in absolute value are representable. -/
structure World.Rounds (W : World) : Prop where
  mono : Monotone W.rnd
  exact_int : ∀ n : ℤ, |n| ≤ 2 ^ 24 → W.rnd (n : ℚ) = (n : ℚ)

/-- A world that rounds to the nearest multiple of `2^-15`, the spacing of binary32
between 256 and 512; apart from `rnd` it is `exactWorld`. -/
def gridWorld : World :=
  { exactWorld with rnd := fun q => (⌊q * 2 ^ 15 + 1 / 2⌋ : ℤ) / 2 ^ 15 }

/-- The two `if`s of `updateCamera` that act on one component of `cameraRotation`. -/
def wrapAngle (W : World) (a : Flt) : Flt :=
  let a := if a < 0 then fadd W a 360 else a
  if a > 360 then fsub W a 360 else a

/-- The part of `Tracer::update` after the kernels are enqueued. -/
def endFrame (W : World) (inp : FrameInput) (s : Tracer) : Tracer :=
  let s := call .finishQueue s
  let s := present s
  let s := printStats W inp.now (call .getStats s)
  let s := call .fetchStatsAsync s
  let s := { s with iteration := (s.iteration + 1) % UINT_MOD }
  if s.iteration % 1000 = 0 then saveImage inp.o s else s

/-- The keys the taxonomy calls force-reinit: scene keys 1-5, L, H, M, F1, I, K, 7, F3
and SPACE. -/
def forceInitKeys : List Int :=
  [GLFW_KEY_1, GLFW_KEY_2, GLFW_KEY_3, GLFW_KEY_4, GLFW_KEY_5, GLFW_KEY_L, GLFW_KEY_H,
   GLFW_KEY_M, GLFW_KEY_F1, GLFW_KEY_I, GLFW_KEY_K, GLFW_KEY_7, GLFW_KEY_F3, GLFW_KEY_SPACE]

/-- State `t` has the iteration counter, the front buffer index and the number of
parameter pushes of state `s`. -/
def Kept (s t : Tracer) : Prop :=
  t.iteration = s.iteration ∧ t.frontBuffer = s.frontBuffer ∧ pushes t.log = pushes s.log

/-- The draw call of the step "Draw progress to screen". -/
def presentCall (s : Tracer) : Call :=
  if s.useMK then .drawPixelBuffer else .drawTexture s.frontBuffer

/-- A tracer that has moved on from the start state after the start state was saved. -/
def movedState : Tracer :=
  { startState with
    cameraRotation := ⟨90, 45⟩
    cameraSpeed := 5
    params.maxBounces := 9
    params.sampleImpl := 0
    params.camera.pos := ⟨3, 2, 1⟩
    disk := (saveState exactWorld startState).disk }

/-! ## The compute context (`src/clcontext.cpp`)

`size_t` is 64 bits wide and `cl_int` is a 32-bit two's complement integer. -/

/-- Modulus of `size_t`. -/
def SIZE_MOD : Nat := 2 ^ 64

/-- A value brought into the range of a 32-bit signed integer. -/
def wrapInt32 (n : Int) : Int := (n + 2 ^ 31) % 2 ^ 32 - 2 ^ 31

/-- The `unsigned int count` of `CLContext::executeKernel`. -/
def CLContext.count : Nat := 800 * 600

/-- The `size_t numLocalGroups` of `CLContext::executeKernel`, given the work-group size
the device reports: `count/local` is a division of integers, `std::ceil` acts on its
result as a `double`, and the `double` goes back to `size_t`. -/
def CLContext.numLocalGroups (localSize : Nat) : Nat :=
  ⌈((CLContext.count / localSize : Nat) : ℚ)⌉.toNat % SIZE_MOD

/-- The `size_t global` of `CLContext::executeKernel`. -/
def CLContext.global (localSize : Nat) : Nat :=
  (localSize * CLContext.numLocalGroups localSize) % SIZE_MOD

/-- The `const int SIZE` of `CLContext::errorString`. -/
def CLContext.SIZE : Int := 64

/-- The initialiser of `std::string errors[SIZE]` in `CLContext::errorString`. -/
def CLContext.errors : List String :=
  [
    "CL_SUCCESS", "CL_DEVICE_NOT_FOUND", "CL_DEVICE_NOT_AVAILABLE",
    "CL_COMPILER_NOT_AVAILABLE", "CL_MEM_OBJECT_ALLOCATION_FAILURE", "CL_OUT_OF_RESOURCES",
    "CL_OUT_OF_HOST_MEMORY", "CL_PROFILING_INFO_NOT_AVAILABLE", "CL_MEM_COPY_OVERLAP",
    "CL_IMAGE_FORMAT_MISMATCH", "CL_IMAGE_FORMAT_NOT_SUPPORTED", "CL_BUILD_PROGRAM_FAILURE",
    "CL_MAP_FAILURE", "", "", "", "", "", "", "", "", "", "", "", "", "", "", "", "", "",
    "CL_INVALID_VALUE", "CL_INVALID_DEVICE_TYPE", "CL_INVALID_PLATFORM", "CL_INVALID_DEVICE",
    "CL_INVALID_CONTEXT", "CL_INVALID_QUEUE_PROPERTIES", "CL_INVALID_COMMAND_QUEUE",
    "CL_INVALID_HOST_PTR", "CL_INVALID_MEM_OBJECT", "CL_INVALID_IMAGE_FORMAT_DESCRIPTOR",
    "CL_INVALID_IMAGE_SIZE", "CL_INVALID_SAMPLER", "CL_INVALID_BINARY",
    "CL_INVALID_BUILD_OPTIONS", "CL_INVALID_PROGRAM", "CL_INVALID_PROGRAM_EXECUTABLE",
    "CL_INVALID_KERNEL_NAME", "CL_INVALID_KERNEL_DEFINITION", "CL_INVALID_KERNEL",
    "CL_INVALID_ARG_INDEX", "CL_INVALID_ARG_VALUE", "CL_INVALID_ARG_SIZE",
    "CL_INVALID_KERNEL_ARGS", "CL_INVALID_WORK_DIMENSION", "CL_INVALID_WORK_GROUP_SIZE",
    "CL_INVALID_WORK_ITEM_SIZE", "CL_INVALID_GLOBAL_OFFSET", "CL_INVALID_EVENT_WAIT_LIST",
    "CL_INVALID_EVENT", "CL_INVALID_OPERATION", "CL_INVALID_GL_OBJECT",
    "CL_INVALID_BUFFER_SIZE", "CL_INVALID_MIP_LEVEL", "CL_INVALID_GLOBAL_WORK_SIZE" ]

/-- Image of `CLContext::errorString`, given the member `err`; `none` stands for a read
outside the array. -/
def CLContext.errorString (err : Int) : Option String :=
  let ind := wrapInt32 (-err)
  if ind ≥ 0 ∧ ind < CLContext.SIZE then CLContext.errors[ind.toNat]? else some "unknown!"

/-- The error codes of OpenCL with their names, as `CL/cl.h` declares them. -/
def clErrorCodes : List (Int × String) :=
  [
    (0, "CL_SUCCESS"),
    (-1, "CL_DEVICE_NOT_FOUND"),
    (-2, "CL_DEVICE_NOT_AVAILABLE"),
    (-3, "CL_COMPILER_NOT_AVAILABLE"),
    (-4, "CL_MEM_OBJECT_ALLOCATION_FAILURE"),
    (-5, "CL_OUT_OF_RESOURCES"),
    (-6, "CL_OUT_OF_HOST_MEMORY"),
    (-7, "CL_PROFILING_INFO_NOT_AVAILABLE"),
    (-8, "CL_MEM_COPY_OVERLAP"),
    (-9, "CL_IMAGE_FORMAT_MISMATCH"),
    (-10, "CL_IMAGE_FORMAT_NOT_SUPPORTED"),
    (-11, "CL_BUILD_PROGRAM_FAILURE"),
    (-12, "CL_MAP_FAILURE"),
    (-30, "CL_INVALID_VALUE"),
    (-31, "CL_INVALID_DEVICE_TYPE"),
    (-32, "CL_INVALID_PLATFORM"),
    (-33, "CL_INVALID_DEVICE"),
    (-34, "CL_INVALID_CONTEXT"),
    (-35, "CL_INVALID_QUEUE_PROPERTIES"),
    (-36, "CL_INVALID_COMMAND_QUEUE"),
    (-37, "CL_INVALID_HOST_PTR"),
    (-38, "CL_INVALID_MEM_OBJECT"),
    (-39, "CL_INVALID_IMAGE_FORMAT_DESCRIPTOR"),
    (-40, "CL_INVALID_IMAGE_SIZE"),
    (-41, "CL_INVALID_SAMPLER"),
    (-42, "CL_INVALID_BINARY"),
    (-43, "CL_INVALID_BUILD_OPTIONS"),
    (-44, "CL_INVALID_PROGRAM"),
    (-45, "CL_INVALID_PROGRAM_EXECUTABLE"),
    (-46, "CL_INVALID_KERNEL_NAME"),
    (-47, "CL_INVALID_KERNEL_DEFINITION"),
    (-48, "CL_INVALID_KERNEL"),
    (-49, "CL_INVALID_ARG_INDEX"),
    (-50, "CL_INVALID_ARG_VALUE"),
    (-51, "CL_INVALID_ARG_SIZE"),
    (-52, "CL_INVALID_KERNEL_ARGS"),
    (-53, "CL_INVALID_WORK_DIMENSION"),
    (-54, "CL_INVALID_WORK_GROUP_SIZE"),
    (-55, "CL_INVALID_WORK_ITEM_SIZE"),
    (-56, "CL_INVALID_GLOBAL_OFFSET"),
    (-57, "CL_INVALID_EVENT_WAIT_LIST"),
    (-58, "CL_INVALID_EVENT"),
    (-59, "CL_INVALID_OPERATION"),
    (-60, "CL_INVALID_GL_OBJECT"),
    (-61, "CL_INVALID_BUFFER_SIZE"),
    (-62, "CL_INVALID_MIP_LEVEL"),
    (-63, "CL_INVALID_GLOBAL_WORK_SIZE") ]

/-- The scene file `selectScene` settles on: the argument, or for the empty argument
the file picked in the dialog, or without a pick the teapot. -/
def chosenScene (o : Oracle) (file : String) : String :=
  if file = "" then
    (match o.selected with
      | some selected => selected
      | none => "assets/teapot.ply")
  else file

/-- The tracer inside `init` right before `loadState()`: the defaults are set and the
scene is selected. -/
def beforeLoadState (W : World) (o : Oracle) (width height : Int) (sceneFile : String)
    (s : Tracer) : Tracer :=
  selectScene W o sceneFile
    { s with
      params.width := toUInt (fmul W (W.rnd width) W.renderScale)
      params.height := toUInt (fmul W (W.rnd height) W.renderScale)
      params.n_lights := W.n_lights
      params.n_objects := W.n_objects
      params.useEnvMap := 0
      params.useAreaLight := 1
      params.envMapStrength := 1
      params.flashlight := 0
      params.maxBounces := 4
      params.sampleImpl := 1
      params.sampleExpl := 1 }

/-- A tracer on which no environment map was ever loaded, with a disk that holds the
state of the teapot scene as saved while `useEnvMap` was `1`. -/
def freshState : Tracer :=
  { startState with
    hasEnvMap := false
    disk := (saveState exactWorld { startState with sceneHash := "assets/teapot.ply" }).disk }

/-- The item of the state file at `path` that `loadState` reads into `useEnvMap`: the
37th, when the file exists and is that long. -/
def savedUseEnvMap (d : Disk) (path : String) : Option Cell :=
  (d.find path).bind (fun cells => cells[36]?)

/-- A tracer on which no environment map was ever loaded, with a disk that holds the
state of the teapot scene as saved while `useEnvMap` was `0`. -/
def plainState : Tracer :=
  { startState with
    hasEnvMap := false
    disk := (saveState exactWorld
      { startState with sceneHash := "assets/teapot.ply", params.useEnvMap := 0 }).disk }

/-- A tracer far into an accumulation: the flag is clear and the 32-bit iteration counter
holds its largest value. -/
def lateState : Tracer :=
  { startState with paramsUpdatePending := false, iteration := 4294967295 }

/-! ## Sampling and light modes -/

/-- C9: starting from implicit and explicit sampling both on, `toggleSamplingMode` goes to
explicit only, then to implicit only, then back to both, and it never changes anything
but `sampleImpl` and `sampleExpl`. -/
theorem toggleSamplingMode_cycle (s : Tracer) :
    (s.params.sampleImpl = 1 → s.params.sampleExpl = 1 →
      toggleSamplingMode s = { s with params.sampleImpl := 0, params.sampleExpl := 1 }
      ∧ toggleSamplingMode (toggleSamplingMode s)
          = { s with params.sampleImpl := 1, params.sampleExpl := 0 }
      ∧ toggleSamplingMode (toggleSamplingMode (toggleSamplingMode s)) = s)
    ∧ toggleSamplingMode s = { s with
        params.sampleImpl := (toggleSamplingMode s).params.sampleImpl
        params.sampleExpl := (toggleSamplingMode s).params.sampleExpl } := by
  obtain ⟨⟨w, h, nl, no, nt, ue, ua, es, fl, mb, si, se, wr, cam, al⟩, _⟩ := s
  refine ⟨?_, ?_⟩
  · intro h1 h2
    simp only at h1 h2
    subst h1 h2
    simp [toggleSamplingMode]
  · simp only [toggleSamplingMode]
    split_ifs <;> rfl

/-- Witness of C9 on the start state. -/
theorem toggleSamplingMode_cycle_witness :
    toggleSamplingMode startState
        = { startState with params.sampleImpl := 0, params.sampleExpl := 1 }
      ∧ toggleSamplingMode (toggleSamplingMode startState)
          = { startState with params.sampleImpl := 1, params.sampleExpl := 0 }
      ∧ toggleSamplingMode (toggleSamplingMode (toggleSamplingMode startState)) = startState :=
  (toggleSamplingMode_cycle startState).1 rfl rfl

/-- C10: with an environment map, and area light and environment map both on, three
calls of `toggleLightSourceMode` pass through environment only and area light only and
come back to both on (to the very state when the two members held `1`); without an
environment map the call changes nothing. -/
theorem toggleLightSourceMode_cycle (s : Tracer) :
    (s.hasEnvMap = true → s.params.useAreaLight ≠ 0 → s.params.useEnvMap ≠ 0 →
      toggleLightSourceMode s = { s with params.useAreaLight := 0 }
      ∧ toggleLightSourceMode (toggleLightSourceMode s)
          = { s with params.useAreaLight := 1, params.useEnvMap := 0 }
      ∧ toggleLightSourceMode (toggleLightSourceMode (toggleLightSourceMode s))
          = { s with params.useAreaLight := 1, params.useEnvMap := 1 }
      ∧ (s.params.useAreaLight = 1 → s.params.useEnvMap = 1 →
          toggleLightSourceMode (toggleLightSourceMode (toggleLightSourceMode s)) = s))
    ∧ (s.hasEnvMap = false → toggleLightSourceMode s = s) := by
  obtain ⟨⟨w, h, nl, no, nt, ue, ua, es, fl, mb, si, se, wr, cam, al⟩, _⟩ := s
  refine ⟨?_, ?_⟩
  · intro h0 h1 h2
    simp only at h0 h1 h2
    subst h0
    refine ⟨?_, ?_, ?_, ?_⟩
    · simp [toggleLightSourceMode, h1, h2]
    · simp [toggleLightSourceMode, h1, h2]
    · simp [toggleLightSourceMode, h1, h2]
    · intro h3 h4
      simp only at h3 h4
      subst h3 h4
      simp [toggleLightSourceMode]
  · intro h0
    simp only at h0
    subst h0
    simp [toggleLightSourceMode]

/-- Witness of C10: the cycle on the start state, and a call without environment map. -/
theorem toggleLightSourceMode_cycle_witness :
    (toggleLightSourceMode startState = { startState with params.useAreaLight := 0 }
      ∧ toggleLightSourceMode (toggleLightSourceMode startState)
          = { startState with params.useAreaLight := 1, params.useEnvMap := 0 }
      ∧ toggleLightSourceMode (toggleLightSourceMode (toggleLightSourceMode startState))
          = { startState with params.useAreaLight := 1, params.useEnvMap := 1 }
      ∧ (startState.params.useAreaLight = 1 → startState.params.useEnvMap = 1 →
          toggleLightSourceMode (toggleLightSourceMode (toggleLightSourceMode startState))
            = startState))
    ∧ toggleLightSourceMode { startState with hasEnvMap := false }
        = { startState with hasEnvMap := false } :=
  ⟨(toggleLightSourceMode_cycle startState).1 rfl (by decide) (by decide),
   (toggleLightSourceMode_cycle { startState with hasEnvMap := false }).2 rfl⟩

/-! ## Camera rotation -/

theorem exactWorld_rounds : exactWorld.Rounds :=
  ⟨fun _ _ h => h, fun _ _ => rfl⟩

theorem gridWorld_rounds : gridWorld.Rounds := by
  refine ⟨?_, ?_⟩
  · intro a b hab
    show ((⌊a * 2 ^ 15 + 1 / 2⌋ : ℤ) : ℚ) / 2 ^ 15 ≤ ((⌊b * 2 ^ 15 + 1 / 2⌋ : ℤ) : ℚ) / 2 ^ 15
    have h : ⌊a * 2 ^ 15 + 1 / 2⌋ ≤ ⌊b * 2 ^ 15 + 1 / 2⌋ := by
      apply Int.floor_mono
      linarith
    have h' : ((⌊a * 2 ^ 15 + 1 / 2⌋ : ℤ) : ℚ) ≤ ((⌊b * 2 ^ 15 + 1 / 2⌋ : ℤ) : ℚ) := by
      exact_mod_cast h
    exact div_le_div_of_nonneg_right h' (by positivity)
  · intro n _
    show ((⌊(n : ℚ) * 2 ^ 15 + 1 / 2⌋ : ℤ) : ℚ) / 2 ^ 15 = n
    have h : ⌊(n : ℚ) * 2 ^ 15 + 1 / 2⌋ = n * 2 ^ 15 := by
      rw [Int.floor_eq_iff]
      constructor <;> push_cast <;> linarith
    rw [h]
    push_cast
    norm_num

theorem updateCamera_rotation (W : World) (s : Tracer) :
    (updateCamera W s).cameraRotation
      = ⟨wrapAngle W s.cameraRotation.x, wrapAngle W s.cameraRotation.y⟩ := by
  obtain ⟨p, ⟨x, y⟩, _⟩ := s
  simp only [updateCamera, wrapAngle]
  split_ifs <;> simp_all

theorem wrapAngle_neg (W : World) (hW : W.Rounds) (a : Flt) (h : a < 0) :
    wrapAngle W a = fadd W a 360 := by
  have h360 : W.rnd 360 = 360 := by simpa using hW.exact_int 360 (by norm_num)
  have hle : fadd W a 360 ≤ 360 := by
    have := hW.mono (show a + 360 ≤ 360 by linarith)
    simpa [fadd, h360] using this
  simp [wrapAngle, h, not_lt.mpr hle]

theorem wrapAngle_big (W : World) (a : Flt) (h : 360 < a) :
    wrapAngle W a = fsub W a 360 := by
  have h0 : ¬ a < 0 := by linarith
  simp [wrapAngle, h, h0]

theorem wrapAngle_mid (W : World) (a : Flt) (h0 : 0 ≤ a) (h1 : a ≤ 360) :
    wrapAngle W a = a := by
  simp [wrapAngle, not_lt.mpr h0, not_lt.mpr h1]

theorem wrapAngle_range (W : World) (hW : W.Rounds) (a : Flt) (h0 : -360 ≤ a)
    (h1 : a ≤ 720) : 0 ≤ wrapAngle W a ∧ wrapAngle W a ≤ 360 := by
  have r0 : W.rnd 0 = 0 := by simpa using hW.exact_int 0 (by norm_num)
  have r360 : W.rnd 360 = 360 := by simpa using hW.exact_int 360 (by norm_num)
  rcases lt_or_le a 0 with h | h
  · rw [wrapAngle_neg W hW a h]
    constructor
    · have := hW.mono (show (0 : ℚ) ≤ a + 360 by linarith)
      simpa [fadd, r0] using this
    · have := hW.mono (show a + 360 ≤ 360 by linarith)
      simpa [fadd, r360] using this
  · rcases lt_or_le 360 a with h' | h'
    · rw [wrapAngle_big W a h']
      constructor
      · have := hW.mono (show (0 : ℚ) ≤ a - 360 by linarith)
        simpa [fsub, r0] using this
      · have := hW.mono (show a - 360 ≤ 360 by linarith)
        simpa [fsub, r360] using this
    · rw [wrapAngle_mid W a h h']
      exact ⟨h, h'⟩

/-- C7, as the code has it: when both components of `cameraRotation` lie between `-360`
and `720`, after `updateCamera` both lie in the closed interval from `0` to `360`. -/
theorem updateCamera_range (W : World) (hW : W.Rounds) (s : Tracer)
    (hx : -360 ≤ s.cameraRotation.x ∧ s.cameraRotation.x ≤ 720)
    (hy : -360 ≤ s.cameraRotation.y ∧ s.cameraRotation.y ≤ 720) :
    (0 ≤ (updateCamera W s).cameraRotation.x ∧ (updateCamera W s).cameraRotation.x ≤ 360)
    ∧ (0 ≤ (updateCamera W s).cameraRotation.y ∧ (updateCamera W s).cameraRotation.y ≤ 360) := by
  rw [updateCamera_rotation]
  exact ⟨wrapAngle_range W hW _ hx.1 hx.2, wrapAngle_range W hW _ hy.1 hy.2⟩

/-- Witness of C7 as amended: the rotation `(-1, 720)` under rounding to the grid. -/
theorem updateCamera_range_witness :
    (0 ≤ (updateCamera gridWorld { startState with cameraRotation := ⟨-1, 720⟩ }).cameraRotation.x
      ∧ (updateCamera gridWorld { startState with cameraRotation := ⟨-1, 720⟩ }).cameraRotation.x
          ≤ 360)
    ∧ (0 ≤ (updateCamera gridWorld { startState with cameraRotation := ⟨-1, 720⟩ }).cameraRotation.y
      ∧ (updateCamera gridWorld { startState with cameraRotation := ⟨-1, 720⟩ }).cameraRotation.y
          ≤ 360) :=
  updateCamera_range gridWorld gridWorld_rounds { startState with cameraRotation := ⟨-1, 720⟩ }
    (by norm_num) (by norm_num)

/-- C7 fails as stated: an angle of exactly `360` stays `360`; it is reached from `359`
by one frame with the right arrow held; a mouse move of `1000` leaves `640`; and under
rounding a small negative angle is moved onto `360` itself. -/
theorem updateCamera_range_counterexample :
    (updateCamera exactWorld { startState with cameraRotation := ⟨360, 0⟩ }).cameraRotation.x = 360
    ∧ (pollKeys exactWorld (fun k => decide (k = GLFW_KEY_RIGHT))
        { startState with cameraRotation := ⟨359, 0⟩ }).cameraRotation.x = 360
    ∧ (handleCursorPos exactWorld 1000 0
        { startState with mouseButtonState.b0 := true }).cameraRotation.x = 640
    ∧ (updateCamera gridWorld
        { startState with cameraRotation := ⟨-1 / 2 ^ 20, 0⟩ }).cameraRotation.x = 360
    ∧ ¬ ∀ (W : World) (s : Tracer), W.Rounds →
        (0 ≤ (updateCamera W s).cameraRotation.x ∧ (updateCamera W s).cameraRotation.x < 360)
        ∧ (0 ≤ (updateCamera W s).cameraRotation.y
          ∧ (updateCamera W s).cameraRotation.y < 360) := by
  have h1 : (updateCamera exactWorld
      { startState with cameraRotation := ⟨360, 0⟩ }).cameraRotation.x = 360 := by
    rw [updateCamera_rotation]
    norm_num [wrapAngle]
  refine ⟨h1, ?_, ?_, ?_, ?_⟩
  · simp only [pollKeys, pollChecks, List.foldl, check, GLFW_KEY_RIGHT, GLFW_KEY_W, GLFW_KEY_A,
      GLFW_KEY_S, GLFW_KEY_D, GLFW_KEY_R, GLFW_KEY_F, GLFW_KEY_UP, GLFW_KEY_DOWN, GLFW_KEY_LEFT,
      GLFW_KEY_PERIOD, GLFW_KEY_COMMA, GLFW_KEY_8, GLFW_KEY_9, GLFW_KEY_PAGE_DOWN,
      GLFW_KEY_PAGE_UP, GLFW_KEY_X, GLFW_KEY_Z]
    norm_num [updateCamera_rotation, wrapAngle, fadd, exactWorld, startState]
  · simp only [handleCursorPos]
    norm_num [updateCamera_rotation, wrapAngle, fadd, fsub, Vec2.add, Vec2.sub, exactWorld,
      startState]
  · rw [updateCamera_rotation]
    norm_num [wrapAngle, fadd, fsub, gridWorld, Int.floor_eq_iff]
  · intro h
    have := (h exactWorld { startState with cameraRotation := ⟨360, 0⟩ } exactWorld_rounds).1.2
    rw [h1] at this
    exact lt_irrefl _ this

/-- C8: `updateCamera` takes the angle `361` to `1` and the angle `-1` to `359`; a
component above `360` and up to `720` becomes the float `a - 360`, a component from
`-360` up to but excluding `0` becomes the float `a + 360`, and a component from `0` to `360`
keeps its value. -/
theorem updateCamera_wrap_one_turn (W : World) (hW : W.Rounds) (s : Tracer) :
    (updateCamera W { s with cameraRotation := ⟨361, -1⟩ }).cameraRotation = ⟨1, 359⟩
    ∧ (360 < s.cameraRotation.x → s.cameraRotation.x ≤ 720 →
        (updateCamera W s).cameraRotation.x = fsub W s.cameraRotation.x 360)
    ∧ (-360 ≤ s.cameraRotation.x → s.cameraRotation.x < 0 →
        (updateCamera W s).cameraRotation.x = fadd W s.cameraRotation.x 360)
    ∧ (0 ≤ s.cameraRotation.x → s.cameraRotation.x ≤ 360 →
        (updateCamera W s).cameraRotation.x = s.cameraRotation.x)
    ∧ (360 < s.cameraRotation.y → s.cameraRotation.y ≤ 720 →
        (updateCamera W s).cameraRotation.y = fsub W s.cameraRotation.y 360)
    ∧ (-360 ≤ s.cameraRotation.y → s.cameraRotation.y < 0 →
        (updateCamera W s).cameraRotation.y = fadd W s.cameraRotation.y 360)
    ∧ (0 ≤ s.cameraRotation.y → s.cameraRotation.y ≤ 360 →
        (updateCamera W s).cameraRotation.y = s.cameraRotation.y) := by
  have r1 : W.rnd 1 = 1 := by simpa using hW.exact_int 1 (by norm_num)
  have r359 : W.rnd 359 = 359 := by simpa using hW.exact_int 359 (by norm_num)
  refine ⟨?_, ?_, ?_, ?_, ?_, ?_, ?_⟩
  · rw [updateCamera_rotation]
    have hx : wrapAngle W 361 = 1 := by
      rw [wrapAngle_big W 361 (by norm_num)]
      norm_num [fsub, r1]
    have hy : wrapAngle W (-1) = 359 := by
      rw [wrapAngle_neg W hW (-1) (by norm_num)]
      norm_num [fadd, r359]
    simp only [hx, hy]
  · intro h _
    rw [updateCamera_rotation]
    exact wrapAngle_big W _ h
  · intro _ h
    rw [updateCamera_rotation]
    exact wrapAngle_neg W hW _ h
  · intro h0 h1
    rw [updateCamera_rotation]
    exact wrapAngle_mid W _ h0 h1
  · intro h _
    rw [updateCamera_rotation]
    exact wrapAngle_big W _ h
  · intro _ h
    rw [updateCamera_rotation]
    exact wrapAngle_neg W hW _ h
  · intro h0 h1
    rw [updateCamera_rotation]
    exact wrapAngle_mid W _ h0 h1

/-- Witness of C8: under rounding to the grid, `(361, -1)` goes to `(1, 359)`, the angle
`400` to the float `400 - 360` and the angle `-90` to the float `-90 + 360`. -/
theorem updateCamera_wrap_one_turn_witness :
    (updateCamera gridWorld { startState with cameraRotation := ⟨361, -1⟩ }).cameraRotation
      = ⟨1, 359⟩
    ∧ (updateCamera gridWorld { startState with cameraRotation := ⟨400, -90⟩ }).cameraRotation.x
      = fsub gridWorld 400 360
    ∧ (updateCamera gridWorld { startState with cameraRotation := ⟨400, -90⟩ }).cameraRotation.y
      = fadd gridWorld (-90) 360 :=
  ⟨(updateCamera_wrap_one_turn gridWorld gridWorld_rounds startState).1,
   (updateCamera_wrap_one_turn gridWorld gridWorld_rounds
      { startState with cameraRotation := ⟨400, -90⟩ }).2.1 (by norm_num) (by norm_num),
   (updateCamera_wrap_one_turn gridWorld gridWorld_rounds
      { startState with cameraRotation := ⟨400, -90⟩ }).2.2.2.2.2.1 (by norm_num) (by norm_num)⟩

/-! ## What the handlers leave alone -/

theorem Kept.refl (s : Tracer) : Kept s s := ⟨rfl, rfl, rfl⟩

theorem Kept.trans {s t u : Tracer} (h1 : Kept s t) (h2 : Kept t u) : Kept s u :=
  ⟨h2.1.trans h1.1, h2.2.1.trans h1.2.1, h2.2.2.trans h1.2.2⟩

theorem pushes_append (l m : List Call) : pushes (l ++ m) = pushes l + pushes m := by
  simp [pushes, List.countP_append]

@[simp] theorem call_log (c : Call) (s : Tracer) : (call c s).log = s.log ++ [c] := rfl

@[simp] theorem call_iteration (c : Call) (s : Tracer) : (call c s).iteration = s.iteration :=
  rfl

@[simp] theorem call_frontBuffer (c : Call) (s : Tracer) :
    (call c s).frontBuffer = s.frontBuffer := rfl

@[simp] theorem call_params (c : Call) (s : Tracer) : (call c s).params = s.params := rfl

@[simp] theorem call_useMK (c : Call) (s : Tracer) : (call c s).useMK = s.useMK := rfl

@[simp] theorem call_paramsUpdatePending (c : Call) (s : Tracer) :
    (call c s).paramsUpdatePending = s.paramsUpdatePending := rfl

@[simp] theorem pushes_nil : pushes [] = 0 := rfl

@[simp] theorem pushes_cons (c : Call) (l : List Call) :
    pushes (c :: l) = pushes l + if c.isUpdateParams then 1 else 0 := by
  cases h : c.isUpdateParams <;> simp [pushes, h]

theorem stateItems_kept (W : World) :
    ∀ it ∈ stateItems, ∀ (c : Cell) (s : Tracer), Kept s (it.set W c s) := by
  simp [stateItems, vecItems, Item.ofFlt, Item.ofUInt, Kept]

theorem foldl_read_kept (W : World) (l : List Item)
    (hl : ∀ it ∈ l, ∀ (c : Cell) (s : Tracer), Kept s (it.set W c s)) (p : Stream × Tracer) :
    Kept p.2 (l.foldl (fun p it => rw W .READ it p) p).2 := by
  induction l generalizing p with
  | nil => exact Kept.refl _
  | cons it l ih =>
    simp only [List.foldl_cons]
    have h1 : Kept p.2 (rw W .READ it p).2 := by
      simp only [rw]
      split
      · exact Kept.refl _
      · exact hl it (List.mem_cons_self _ _) _ _
    exact h1.trans (ih (fun i hi => hl i (List.mem_cons_of_mem _ hi)) _)

theorem foldl_write_snd (W : World) (l : List Item) (p : Stream × Tracer) :
    (l.foldl (fun p it => rw W .WRITE it p) p).2 = p.2 := by
  induction l generalizing p with
  | nil => rfl
  | cons it l ih =>
    simp only [List.foldl_cons]
    rw [ih]
    rfl

theorem saveState_eq (W : World) (s : Tracer) :
    saveState W s = { s with disk := (saveState W s).disk } := by
  simp only [saveState, iterateStateItems]
  cases h : Stream.open .WRITE (statePath s.sceneHash) s.disk with
  | none => rfl
  | some stream => simp only [foldl_write_snd]

theorem loadState_kept (W : World) (s : Tracer) : Kept s (loadState W s) := by
  simp only [loadState, iterateStateItems]
  cases h : Stream.open .READ (statePath s.sceneHash) s.disk with
  | none => exact Kept.refl _
  | some stream => exact foldl_read_kept W stateItems (stateItems_kept W) (stream, s)

@[simp] theorem loadState_iteration (W : World) (s : Tracer) :
    (loadState W s).iteration = s.iteration := (loadState_kept W s).1

@[simp] theorem loadState_frontBuffer (W : World) (s : Tracer) :
    (loadState W s).frontBuffer = s.frontBuffer := (loadState_kept W s).2.1

@[simp] theorem loadState_pushes (W : World) (s : Tracer) :
    pushes (loadState W s).log = pushes s.log := (loadState_kept W s).2.2

theorem pushes_singleton (c : Call) : pushes [c] = if c.isUpdateParams then 1 else 0 := by
  cases h : c.isUpdateParams <;> simp [pushes, h]

theorem call_kept (c : Call) (hc : c.isUpdateParams = false) (s : Tracer) :
    Kept s (call c s) := by
  refine ⟨rfl, rfl, ?_⟩
  simp [pushes_append, pushes_singleton, hc]

theorem initEnvMap_kept (W : World) (s : Tracer) : Kept s (initEnvMap W s) := by
  unfold initEnvMap
  split_ifs
  · exact call_kept (.createEnvMap _) rfl _
  · exact Kept.refl _

@[simp] theorem initEnvMap_iteration (W : World) (s : Tracer) :
    (initEnvMap W s).iteration = s.iteration := (initEnvMap_kept W s).1

@[simp] theorem initEnvMap_frontBuffer (W : World) (s : Tracer) :
    (initEnvMap W s).frontBuffer = s.frontBuffer := (initEnvMap_kept W s).2.1

@[simp] theorem initEnvMap_pushes (W : World) (s : Tracer) :
    pushes (initEnvMap W s).log = pushes s.log := (initEnvMap_kept W s).2.2

theorem initHierarchy_kept (W : World) (s : Tracer) : Kept s (initHierarchy W s) := by
  unfold initHierarchy
  simp only []
  split_ifs <;> exact ⟨rfl, rfl, rfl⟩

@[simp] theorem initHierarchy_iteration (W : World) (s : Tracer) :
    (initHierarchy W s).iteration = s.iteration := (initHierarchy_kept W s).1

@[simp] theorem initHierarchy_frontBuffer (W : World) (s : Tracer) :
    (initHierarchy W s).frontBuffer = s.frontBuffer := (initHierarchy_kept W s).2.1

@[simp] theorem initHierarchy_pushes (W : World) (s : Tracer) :
    pushes (initHierarchy W s).log = pushes s.log := (initHierarchy_kept W s).2.2

theorem init_kept (W : World) (o : Oracle) (width height : Int) (sceneFile : String)
    (s : Tracer) : Kept s (init W o width height sceneFile s) := by
  refine ⟨?_, ?_, ?_⟩ <;>
    simp [init, selectScene, pushes_append, pushes_singleton, Call.isUpdateParams]

theorem updateCamera_kept (W : World) (s : Tracer) : Kept s (updateCamera W s) := by
  refine ⟨?_, ?_, ?_⟩ <;> simp only [updateCamera] <;> split_ifs <;> rfl

/-- Case analysis along the `switch` of `handleKeypress`. -/
theorem handleKeypress_cases (P : Tracer → Prop) (W : World) (o : Oracle) (key : Int)
    (s : Tracer)
    (h1 : key = GLFW_KEY_1 → P (matchInit (quickLoadScene W o 1 s)))
    (h2 : key = GLFW_KEY_2 → P (matchInit (quickLoadScene W o 2 s)))
    (h3 : key = GLFW_KEY_3 → P (matchInit (quickLoadScene W o 3 s)))
    (h4 : key = GLFW_KEY_4 → P (matchInit (quickLoadScene W o 4 s)))
    (h5 : key = GLFW_KEY_5 → P (matchInit (quickLoadScene W o 5 s)))
    (h6 : key = GLFW_KEY_L → P (matchInit (init W o s.params.width s.params.height "" s)))
    (h7 : key = GLFW_KEY_H → P (matchInit (toggleLightSourceMode s)))
    (h8 : key = GLFW_KEY_7 → P (matchInit { s with useMK := !s.useMK }))
    (h9 : key = GLFW_KEY_F1 → P (matchInit (initCamera s)))
    (h10 : key = GLFW_KEY_F3 → P (matchInit (loadState W s)))
    (h11 : key = GLFW_KEY_SPACE → P (matchInit (updateAreaLight W s)))
    (h12 : key = GLFW_KEY_I → P (matchInit { s with params.maxBounces := (s.params.maxBounces + 1) % UINT_MOD }))
    (h13 : key = GLFW_KEY_K → P (matchInit (if s.params.maxBounces > 0 then
          { s with params.maxBounces := s.params.maxBounces - 1 } else s)))
    (h14 : key = GLFW_KEY_M → P (matchInit (toggleSamplingMode s)))
    (h15 : key = GLFW_KEY_F2 → P (matchKeep (saveState W s)))
    (h16 : key = GLFW_KEY_F5 → P (matchKeep (saveImage o s)))
    (h0 : key ∉ forceInitKeys → key ≠ GLFW_KEY_F2 → key ≠ GLFW_KEY_F5 → P s) :
    P (handleKeypress W o key s) := by
  unfold handleKeypress
  by_cases c1 : key = GLFW_KEY_1
  · rw [if_pos c1]
    exact h1 c1
  rw [if_neg c1]
  by_cases c2 : key = GLFW_KEY_2
  · rw [if_pos c2]
    exact h2 c2
  rw [if_neg c2]
  by_cases c3 : key = GLFW_KEY_3
  · rw [if_pos c3]
    exact h3 c3
  rw [if_neg c3]
  by_cases c4 : key = GLFW_KEY_4
  · rw [if_pos c4]
    exact h4 c4
  rw [if_neg c4]
  by_cases c5 : key = GLFW_KEY_5
  · rw [if_pos c5]
    exact h5 c5
  rw [if_neg c5]
  by_cases c6 : key = GLFW_KEY_L
  · rw [if_pos c6]
    exact h6 c6
  rw [if_neg c6]
  by_cases c7 : key = GLFW_KEY_H
  · rw [if_pos c7]
    exact h7 c7
  rw [if_neg c7]
  by_cases c8 : key = GLFW_KEY_7
  · rw [if_pos c8]
    exact h8 c8
  rw [if_neg c8]
  by_cases c9 : key = GLFW_KEY_F1
  · rw [if_pos c9]
    exact h9 c9
  rw [if_neg c9]
  by_cases c10 : key = GLFW_KEY_F3
  · rw [if_pos c10]
    exact h10 c10
  rw [if_neg c10]
  by_cases c11 : key = GLFW_KEY_SPACE
  · rw [if_pos c11]
    exact h11 c11
  rw [if_neg c11]
  by_cases c12 : key = GLFW_KEY_I
  · rw [if_pos c12]
    exact h12 c12
  rw [if_neg c12]
  by_cases c13 : key = GLFW_KEY_K
  · rw [if_pos c13]
    exact h13 c13
  rw [if_neg c13]
  by_cases c14 : key = GLFW_KEY_M
  · rw [if_pos c14]
    exact h14 c14
  rw [if_neg c14]
  by_cases c15 : key = GLFW_KEY_F2
  · rw [if_pos c15]
    exact h15 c15
  rw [if_neg c15]
  by_cases c16 : key = GLFW_KEY_F5
  · rw [if_pos c16]
    exact h16 c16
  rw [if_neg c16]
  refine h0 ?_ c15 c16
  simp only [forceInitKeys, List.mem_cons, List.mem_singleton, List.not_mem_nil, or_false,
    not_or]
  exact ⟨c1, c2, c3, c4, c5, c6, c7, c14, c9, c12, c13, c8, c10, c11⟩

theorem matchInit_kept (s t : Tracer) (h : Kept s t) : Kept s (matchInit t) :=
  h.trans ⟨rfl, rfl, rfl⟩

theorem quickLoadScene_kept (W : World) (o : Oracle) (k : Nat) (s : Tracer) :
    Kept s (quickLoadScene W o k s) := by
  unfold quickLoadScene
  cases W.shortcuts k with
  | none => exact Kept.refl _
  | some file => exact init_kept _ _ _ _ _ _

theorem toggleLightSourceMode_kept (s : Tracer) : Kept s (toggleLightSourceMode s) := by
  unfold toggleLightSourceMode
  split_ifs <;> exact ⟨rfl, rfl, rfl⟩

theorem toggleSamplingMode_kept (s : Tracer) : Kept s (toggleSamplingMode s) := by
  unfold toggleSamplingMode
  split_ifs <;> exact ⟨rfl, rfl, rfl⟩

theorem handleKeypress_kept (W : World) (o : Oracle) (key : Int) (s : Tracer) :
    Kept s (handleKeypress W o key s) := by
  apply handleKeypress_cases (fun t => Kept s t)
  · exact fun _ => matchInit_kept _ _ (quickLoadScene_kept _ _ _ _)
  · exact fun _ => matchInit_kept _ _ (quickLoadScene_kept _ _ _ _)
  · exact fun _ => matchInit_kept _ _ (quickLoadScene_kept _ _ _ _)
  · exact fun _ => matchInit_kept _ _ (quickLoadScene_kept _ _ _ _)
  · exact fun _ => matchInit_kept _ _ (quickLoadScene_kept _ _ _ _)
  · exact fun _ => matchInit_kept _ _ (init_kept _ _ _ _ _ _)
  · exact fun _ => matchInit_kept _ _ (toggleLightSourceMode_kept _)
  · exact fun _ => matchInit_kept _ _ ⟨rfl, rfl, rfl⟩
  · exact fun _ => matchInit_kept _ _ ⟨rfl, rfl, rfl⟩
  · exact fun _ => matchInit_kept _ _ (loadState_kept _ _)
  · exact fun _ => matchInit_kept _ _ ⟨rfl, rfl, rfl⟩
  · exact fun _ => matchInit_kept _ _ ⟨rfl, rfl, rfl⟩
  · intro _
    apply matchInit_kept
    split_ifs <;> exact ⟨rfl, rfl, rfl⟩
  · exact fun _ => matchInit_kept _ _ (toggleSamplingMode_kept _)
  · intro _
    rw [matchKeep, saveState_eq]
    exact ⟨rfl, rfl, rfl⟩
  · exact fun _ => call_kept (.saveImage _ _ _) rfl _
  · exact fun _ _ _ => Kept.refl _

@[simp] theorem updateCamera_iteration (W : World) (s : Tracer) :
    (updateCamera W s).iteration = s.iteration := (updateCamera_kept W s).1

@[simp] theorem updateCamera_frontBuffer (W : World) (s : Tracer) :
    (updateCamera W s).frontBuffer = s.frontBuffer := (updateCamera_kept W s).2.1

@[simp] theorem updateCamera_pushes (W : World) (s : Tracer) :
    pushes (updateCamera W s).log = pushes s.log := (updateCamera_kept W s).2.2

theorem handleMouseButton_kept (cursor : Vec2) (key action : Int) (s : Tracer) :
    Kept s (handleMouseButton cursor key action s) := by
  unfold handleMouseButton
  split_ifs <;> exact ⟨rfl, rfl, rfl⟩

theorem handleCursorPos_kept (W : World) (x y : Flt) (s : Tracer) :
    Kept s (handleCursorPos W x y s) := by
  unfold handleCursorPos
  split_ifs
  · refine ⟨?_, ?_, ?_⟩ <;> simp
  · exact Kept.refl _

theorem resizeBuffers_kept (s : Tracer) : Kept s (resizeBuffers s) := by
  refine ⟨rfl, rfl, ?_⟩
  simp [resizeBuffers, pushes_append, Call.isUpdateParams]

theorem Event.run_kept (W : World) (e : Event) (s : Tracer) : Kept s (e.run W s) := by
  cases e with
  | keyPress key o => exact handleKeypress_kept W o key s
  | mouseButton key action cursor => exact handleMouseButton_kept cursor key action s
  | cursorPos x y => exact handleCursorPos_kept W x y s
  | scroll yoffset => exact ⟨rfl, rfl, rfl⟩
  | framebufferSize => exact resizeBuffers_kept s

theorem glfwPollEvents_kept (W : World) (events : List Event) (s : Tracer) :
    Kept s (glfwPollEvents W events s) := by
  unfold glfwPollEvents
  induction events generalizing s with
  | nil => exact Kept.refl _
  | cons e l ih => exact (Event.run_kept W e s).trans (ih _)

theorem pollChecks_kept (W : World) :
    ∀ c ∈ pollChecks W, ∀ s : Tracer, Kept s (c.2 s) := by
  simp [pollChecks, Kept]

theorem foldl_check_kept (keyPressed : Int → Bool) (l : List (Int × (Tracer → Tracer)))
    (hl : ∀ c ∈ l, ∀ s : Tracer, Kept s (c.2 s)) (s : Tracer) :
    Kept s (l.foldl (fun s c => check keyPressed c.1 c.2 s) s) := by
  induction l generalizing s with
  | nil => exact Kept.refl _
  | cons c l ih =>
    simp only [List.foldl_cons]
    have h1 : Kept s (check keyPressed c.1 c.2 s) := by
      unfold check
      split_ifs
      · exact (hl c (List.mem_cons_self _ _) s).trans ⟨rfl, rfl, rfl⟩
      · exact Kept.refl _
    exact h1.trans (ih (fun i hi => hl i (List.mem_cons_of_mem _ hi)) _)

theorem pollKeys_kept (W : World) (keyPressed : Int → Bool) (s : Tracer) :
    Kept s (pollKeys W keyPressed s) := by
  unfold pollKeys
  have h := foldl_check_kept keyPressed (pollChecks W) (pollChecks_kept W) s
  simp only []
  split_ifs
  · exact h.trans (updateCamera_kept W _)
  · exact h

theorem atSync_kept (W : World) (inp : FrameInput) (s : Tracer) : Kept s (atSync W inp s) :=
  (glfwPollEvents_kept W inp.events s).trans (pollKeys_kept W inp.keyPressed _)

/-! ## The steps of a frame -/

theorem update_eq (W : World) (inp : FrameInput) (s : Tracer) :
    update W inp s = endFrame W inp (dispatch (atDispatch W inp s)) := rfl

theorem syncParams_clean (W : World) (inp : FrameInput) (s : Tracer)
    (h : s.paramsUpdatePending = false) : syncParams W inp s = s := by
  simp [syncParams, h]

theorem syncParams_dirty (W : World) (inp : FrameInput) (s : Tracer)
    (h : s.paramsUpdatePending = true) :
    (syncParams W inp s).log = s.log ++ [.updateParams (syncParams W inp s).params]
    ∧ (syncParams W inp s).paramsUpdatePending = false
    ∧ (syncParams W inp s).iteration = 0
    ∧ (syncParams W inp s).useMK = s.useMK
    ∧ (syncParams W inp s).frontBuffer = s.frontBuffer := by
  simp [syncParams, h]

theorem dispatch_fields (s : Tracer) :
    (dispatch s).iteration = s.iteration ∧ (dispatch s).frontBuffer = s.frontBuffer
    ∧ (dispatch s).useMK = s.useMK := by
  unfold dispatch
  split_ifs <;> simp

theorem dispatch_pushes (s : Tracer) : pushes (dispatch s).log = pushes s.log := by
  unfold dispatch
  split_ifs <;> simp [pushes_append, Call.isUpdateParams]

theorem presentCall_isUpdateParams (s : Tracer) : (presentCall s).isUpdateParams = false := by
  unfold presentCall
  split_ifs <;> rfl

theorem present_fields (s : Tracer) :
    (present s).log = s.log ++ [presentCall s]
    ∧ (present s).iteration = s.iteration
    ∧ (present s).frontBuffer = (if s.useMK then s.frontBuffer else 1 - s.frontBuffer)
    ∧ (present s).lastPrinted = s.lastPrinted := by
  unfold present presentCall
  split_ifs <;> simp [call]

theorem printStats_fields (W : World) (now : Flt) (s : Tracer) :
    (∃ l, (printStats W now s).log = s.log ++ l ∧ pushes l = 0)
    ∧ (printStats W now s).iteration = s.iteration
    ∧ (printStats W now s).frontBuffer = s.frontBuffer := by
  unfold printStats
  simp only []
  split_ifs
  · exact ⟨⟨[.resetStats], rfl, by simp [Call.isUpdateParams]⟩, rfl, rfl⟩
  · exact ⟨⟨[], by simp, rfl⟩, rfl, rfl⟩

theorem saveImage_fields (o : Oracle) (s : Tracer) :
    (∃ l, (saveImage o s).log = s.log ++ l ∧ pushes l = 0)
    ∧ (saveImage o s).iteration = s.iteration
    ∧ (saveImage o s).frontBuffer = s.frontBuffer :=
  ⟨⟨[_], rfl, by simp [Call.isUpdateParams]⟩, rfl, rfl⟩

/-- The part of `update` after the kernels: its calls start with `finishQueue` and the
draw call and push no parameters; the iteration counter grows by one modulo `2^32`; the
front buffer index is toggled exactly when `useMK` is not set. -/
theorem endFrame_fields (W : World) (inp : FrameInput) (s : Tracer) :
    (∃ rest, (endFrame W inp s).log = s.log ++ Call.finishQueue :: presentCall s :: rest
      ∧ pushes rest = 0)
    ∧ (endFrame W inp s).iteration = (s.iteration + 1) % UINT_MOD
    ∧ (endFrame W inp s).frontBuffer = (if s.useMK then s.frontBuffer else 1 - s.frontBuffer) := by
  obtain ⟨p1, p2, p3, _⟩ := present_fields (call .finishQueue s)
  obtain ⟨⟨l1, q1, q1'⟩, q2, q3⟩ :=
    printStats_fields W inp.now (call .getStats (present (call .finishQueue s)))
  have hpc : presentCall (call .finishQueue s) = presentCall s := rfl
  rw [hpc] at p1
  simp only [call_log, call_iteration, call_frontBuffer, call_useMK] at p1 p2 p3 q1 q2 q3
  generalize (if s.useMK = true then s.frontBuffer else 1 - s.frontBuffer) = fb at p3 ⊢
  unfold endFrame
  simp only []
  split_ifs with h
  · obtain ⟨⟨l2, r1, r1'⟩, r2, r3⟩ := saveImage_fields inp.o
      { call .fetchStatsAsync
          (printStats W inp.now (call .getStats (present (call .finishQueue s)))) with
        iteration := ((call .fetchStatsAsync
          (printStats W inp.now (call .getStats (present (call .finishQueue s))))).iteration + 1)
            % UINT_MOD }
    refine ⟨⟨[.getStats] ++ l1 ++ [.fetchStatsAsync] ++ l2, ?_, ?_⟩, ?_, ?_⟩
    · rw [r1]
      simp only [call_log, q1, p1]
      simp
    · simp [pushes_append, q1', r1', Call.isUpdateParams]
    · rw [r2]
      simp only [call_iteration, q2, p2]
    · rw [r3]
      simp only [call_frontBuffer, q3, p3]
  · refine ⟨⟨[.getStats] ++ l1 ++ [.fetchStatsAsync], ?_, ?_⟩, ?_, ?_⟩
    · simp only [call_log, q1, p1]
      simp
    · simp [pushes_append, q1', Call.isUpdateParams]
    · simp only [call_iteration, q2, p2]
    · simp only [call_frontBuffer, q3, p3]

theorem callsSince_append (s t : Tracer) (l : List Call) (h : t.log = s.log ++ l) :
    callsSince s t = l := by
  simp [callsSince, h]

theorem update_log (W : World) (inp : FrameInput) (s : Tracer) :
    ∃ rest, (update W inp s).log
        = (dispatch (atDispatch W inp s)).log ++ Call.finishQueue
            :: presentCall (atDispatch W inp s) :: rest
      ∧ pushes rest = 0 := by
  obtain ⟨rest, h, hp⟩ := (endFrame_fields W inp (dispatch (atDispatch W inp s))).1
  refine ⟨rest, ?_, hp⟩
  rw [update_eq, h]
  unfold presentCall
  rw [(dispatch_fields _).2.1, (dispatch_fields _).2.2]

theorem update_iteration (W : World) (inp : FrameInput) (s : Tracer) :
    (update W inp s).iteration = ((atDispatch W inp s).iteration + 1) % UINT_MOD := by
  rw [update_eq, (endFrame_fields _ _ _).2.1, (dispatch_fields _).1]

theorem syncParams_frontBuffer (W : World) (inp : FrameInput) (s : Tracer) :
    (syncParams W inp s).frontBuffer = s.frontBuffer := by
  unfold syncParams
  split_ifs <;> rfl

theorem atDispatch_frontBuffer (W : World) (inp : FrameInput) (s : Tracer) :
    (atDispatch W inp s).frontBuffer = s.frontBuffer := by
  rw [atDispatch, syncParams_frontBuffer]
  exact (atSync_kept W inp s).2.1

theorem update_frontBuffer_eq (W : World) (inp : FrameInput) (s : Tracer) :
    (update W inp s).frontBuffer
      = if (atDispatch W inp s).useMK then s.frontBuffer else 1 - s.frontBuffer := by
  rw [update_eq, (endFrame_fields _ _ _).2.2, (dispatch_fields _).2.1,
    (dispatch_fields _).2.2, atDispatch_frontBuffer]

theorem endFrame_paramsUpdatePending (W : World) (inp : FrameInput) (s : Tracer) :
    (endFrame W inp s).paramsUpdatePending = s.paramsUpdatePending := by
  simp only [endFrame, present, printStats, saveImage]
  split_ifs <;> simp [call]

theorem endFrame_useMK (W : World) (inp : FrameInput) (s : Tracer) :
    (endFrame W inp s).useMK = s.useMK := by
  simp only [endFrame, present, printStats, saveImage]
  split_ifs <;> simp [call]

theorem dispatch_paramsUpdatePending (s : Tracer) :
    (dispatch s).paramsUpdatePending = s.paramsUpdatePending := by
  unfold dispatch
  split_ifs <;> simp

/-- After every `update` the flag `paramsUpdatePending` is clear. -/
theorem update_paramsUpdatePending (W : World) (inp : FrameInput) (s : Tracer) :
    (update W inp s).paramsUpdatePending = false := by
  rw [update_eq, endFrame_paramsUpdatePending, dispatch_paramsUpdatePending, atDispatch]
  cases h : (atSync W inp s).paramsUpdatePending with
  | true => exact (syncParams_dirty W inp _ h).2.1
  | false => rw [syncParams_clean W inp _ h, h]

@[simp] theorem updateCamera_paramsUpdatePending (W : World) (s : Tracer) :
    (updateCamera W s).paramsUpdatePending = s.paramsUpdatePending := by
  simp only [updateCamera]
  split_ifs <;> rfl

@[simp] theorem updateCamera_useMK (W : World) (s : Tracer) :
    (updateCamera W s).useMK = s.useMK := by
  simp only [updateCamera]
  split_ifs <;> rfl

/-- In a frame without events and held keys, polling only refreshes the camera, and only
when the flag is set. -/
theorem atSync_quiet (W : World) (s : Tracer) :
    atSync W quietFrame s = if s.paramsUpdatePending then updateCamera W s else s := by
  simp [atSync, glfwPollEvents, pollKeys, pollChecks, check, quietFrame]

theorem atDispatch_quiet_dirty (W : World) (s : Tracer) (h : s.paramsUpdatePending = true) :
    (atSync W quietFrame s).paramsUpdatePending = true
    ∧ (atDispatch W quietFrame s).iteration = 0
    ∧ (atDispatch W quietFrame s).useMK = s.useMK := by
  have h1 : (atSync W quietFrame s).paramsUpdatePending = true := by
    rw [atSync_quiet, if_pos h, updateCamera_paramsUpdatePending, h]
  have h2 : (atSync W quietFrame s).useMK = s.useMK := by
    rw [atSync_quiet, if_pos h, updateCamera_useMK]
  obtain ⟨_, _, h3, h4, _⟩ := syncParams_dirty W quietFrame _ h1
  exact ⟨h1, h3, by rw [atDispatch, h4, h2]⟩

theorem atDispatch_quiet_clean (W : World) (s : Tracer) (h : s.paramsUpdatePending = false) :
    atSync W quietFrame s = s ∧ atDispatch W quietFrame s = s := by
  have h1 : atSync W quietFrame s = s := by
    rw [atSync_quiet]
    simp [h]
  refine ⟨h1, ?_⟩
  rw [atDispatch, h1, syncParams_clean W quietFrame s h]

/-! ## The frame loop: claims -/

/-- C1, as the code has it: `update` is its polling, then the parameter step, then the
kernels, then the rest.  When `paramsUpdatePending` is set on reaching the parameter
step, that step makes the one call `updateParams`, clears the flag and leaves the
iteration counter at `0` for the kernels.  In the `update` that follows any `update`,
when the flag is not set on reaching the parameter step, no `updateParams` is logged
during the whole call and the counter the kernels see is that of the preceding frame
plus one modulo `2^32`: one more, hence greater and not `0`, when the preceding frame ran
below `2^32 - 1`, and `0` when it ran with `2^32 - 1`. -/
theorem update_accumulation_reset (W : World) (inp inp' : FrameInput) (s : Tracer) :
    update W inp s = endFrame W inp (dispatch (syncParams W inp (atSync W inp s)))
    ∧ ((atSync W inp s).paramsUpdatePending = true →
        callsSince (atSync W inp s) (atDispatch W inp s)
          = [.updateParams (atDispatch W inp s).params]
        ∧ (atDispatch W inp s).paramsUpdatePending = false
        ∧ (atDispatch W inp s).iteration = 0)
    ∧ ((atSync W inp' (update W inp s)).paramsUpdatePending = false →
        atDispatch W inp' (update W inp s) = atSync W inp' (update W inp s)
        ∧ pushes (update W inp' (update W inp s)).log = pushes (update W inp s).log
        ∧ (atDispatch W inp' (update W inp s)).iteration
            = ((atDispatch W inp s).iteration + 1) % UINT_MOD
        ∧ ((atDispatch W inp s).iteration + 1 < UINT_MOD →
            (atDispatch W inp' (update W inp s)).iteration = (atDispatch W inp s).iteration + 1
            ∧ (atDispatch W inp' (update W inp s)).iteration ≠ 0
            ∧ (atDispatch W inp s).iteration < (atDispatch W inp' (update W inp s)).iteration)
        ∧ ((atDispatch W inp s).iteration + 1 = UINT_MOD →
            (atDispatch W inp' (update W inp s)).iteration = 0)) := by
  refine ⟨rfl, ?_, ?_⟩
  · intro h
    obtain ⟨h1, h2, h3, _, _⟩ := syncParams_dirty W inp (atSync W inp s) h
    exact ⟨callsSince_append _ _ _ h1, h2, h3⟩
  · intro h
    have e : atDispatch W inp' (update W inp s) = atSync W inp' (update W inp s) :=
      syncParams_clean W inp' _ h
    have hk := atSync_kept W inp' (update W inp s)
    have hi : (atDispatch W inp' (update W inp s)).iteration
        = ((atDispatch W inp s).iteration + 1) % UINT_MOD := by
      rw [e, hk.1, update_iteration]
    refine ⟨e, ?_, hi, ?_, ?_⟩
    · obtain ⟨rest, hl, hp⟩ := update_log W inp' (update W inp s)
      rw [hl, pushes_append, dispatch_pushes, e, hk.2.2]
      have hq : Call.finishQueue.isUpdateParams = false := rfl
      simp [hp, presentCall_isUpdateParams, hq]
    · intro hlt
      rw [hi, Nat.mod_eq_of_lt hlt]
      exact ⟨rfl, Nat.succ_ne_zero _, Nat.lt_succ_self _⟩
    · intro heq
      rw [hi, heq, Nat.mod_self]

/-- C2, as the code has it: an `update` whose kernels are the separate wavefront kernels
(`useMK` set) leaves `frontBuffer` as it was and draws the pixel buffer right after the
queue is finished; an `update` that enqueues the megakernel (`useMK` not set) draws the
texture `frontBuffer` right after the queue is finished and then toggles `frontBuffer`
once, to `1 - frontBuffer`. -/
theorem update_frontBuffer (W : World) (inp : FrameInput) (s : Tracer) :
    ((atDispatch W inp s).useMK = true →
      (update W inp s).frontBuffer = s.frontBuffer
      ∧ (callsSince (dispatch (atDispatch W inp s)) (update W inp s)).take 2
          = [.finishQueue, .drawPixelBuffer])
    ∧ ((atDispatch W inp s).useMK = false →
      callsSince (atDispatch W inp s) (dispatch (atDispatch W inp s))
        = [.enqueueMegaKernel (atDispatch W inp s).params s.frontBuffer
            (atDispatch W inp s).iteration]
      ∧ (update W inp s).frontBuffer = 1 - s.frontBuffer
      ∧ (callsSince (dispatch (atDispatch W inp s)) (update W inp s)).take 2
          = [.finishQueue, .drawTexture s.frontBuffer]) := by
  obtain ⟨rest, hl, _⟩ := update_log W inp s
  have hf := update_frontBuffer_eq W inp s
  unfold presentCall at hl
  refine ⟨?_, ?_⟩
  · intro h
    rw [h] at hl
    refine ⟨by simp [hf, h], ?_⟩
    rw [callsSince_append _ _ _ hl]
    rfl
  · intro h
    rw [h, atDispatch_frontBuffer] at hl
    refine ⟨?_, by simp [hf, h], ?_⟩
    · apply callsSince_append
      simp [dispatch, h, atDispatch_frontBuffer]
    · rw [callsSince_append _ _ _ hl]
      rfl

/-- C4: when `update` enqueues its kernels in wavefront mode with the iteration counter at
`0`, the calls from there up to `finishQueue` are, in this order: reset, ray generation,
next vertex, explicit sampling with index `0`, next vertex, explicit sampling with index
`1`, preview splat. -/
theorem update_wavefront_preview (W : World) (inp : FrameInput) (s : Tracer)
    (hmode : (atDispatch W inp s).useMK = true)
    (hiter : (atDispatch W inp s).iteration = 0) :
    (callsSince (atDispatch W inp s) (update W inp s)).takeWhile
        (fun c => decide (c ≠ Call.finishQueue))
      = [ .enqueueResetKernel (atDispatch W inp s).params,
          .enqueueRayGenKernel (atDispatch W inp s).params,
          .enqueueNextVertexKernel (atDispatch W inp s).params,
          .enqueueExplSampleKernel (atDispatch W inp s).params 0,
          .enqueueNextVertexKernel (atDispatch W inp s).params,
          .enqueueExplSampleKernel (atDispatch W inp s).params 1,
          .enqueueSplatPreviewKernel (atDispatch W inp s).params ]
    ∧ Call.finishQueue ∈ callsSince (atDispatch W inp s) (update W inp s) := by
  obtain ⟨rest, hl, _⟩ := update_log W inp s
  have hd : (dispatch (atDispatch W inp s)).log = (atDispatch W inp s).log ++
      [ .enqueueResetKernel (atDispatch W inp s).params,
        .enqueueRayGenKernel (atDispatch W inp s).params,
        .enqueueNextVertexKernel (atDispatch W inp s).params,
        .enqueueExplSampleKernel (atDispatch W inp s).params 0,
        .enqueueNextVertexKernel (atDispatch W inp s).params,
        .enqueueExplSampleKernel (atDispatch W inp s).params 1,
        .enqueueSplatPreviewKernel (atDispatch W inp s).params ] := by
    simp [dispatch, hmode, hiter, UINT_MOD]
  rw [hd, List.append_assoc] at hl
  rw [callsSince_append _ _ _ hl]
  simp [List.takeWhile]

/-- C5: when `update` enqueues its kernels in wavefront mode with the iteration counter
above `0`, the calls from there up to `finishQueue` are, in this order: ray generation,
next vertex, explicit sampling with the iteration counter, splat with `frontBuffer`. -/
theorem update_wavefront_full (W : World) (inp : FrameInput) (s : Tracer)
    (hmode : (atDispatch W inp s).useMK = true)
    (hiter : 0 < (atDispatch W inp s).iteration) :
    (callsSince (atDispatch W inp s) (update W inp s)).takeWhile
        (fun c => decide (c ≠ Call.finishQueue))
      = [ .enqueueRayGenKernel (atDispatch W inp s).params,
          .enqueueNextVertexKernel (atDispatch W inp s).params,
          .enqueueExplSampleKernel (atDispatch W inp s).params (atDispatch W inp s).iteration,
          .enqueueSplatKernel (atDispatch W inp s).params (atDispatch W inp s).frontBuffer ]
    ∧ Call.finishQueue ∈ callsSince (atDispatch W inp s) (update W inp s) := by
  obtain ⟨rest, hl, _⟩ := update_log W inp s
  have hd : (dispatch (atDispatch W inp s)).log = (atDispatch W inp s).log ++
      [ .enqueueRayGenKernel (atDispatch W inp s).params,
        .enqueueNextVertexKernel (atDispatch W inp s).params,
        .enqueueExplSampleKernel (atDispatch W inp s).params (atDispatch W inp s).iteration,
        .enqueueSplatKernel (atDispatch W inp s).params (atDispatch W inp s).frontBuffer ] := by
    simp [dispatch, hmode, Nat.ne_of_gt hiter]
  rw [hd, List.append_assoc] at hl
  rw [callsSince_append _ _ _ hl]
  simp [List.takeWhile]

/-- Witness of C1 as amended: the first frame of the start state pushes the parameters
and runs its kernels with the counter at `0`; the frame after it pushes nothing and runs
with `1`; and the frame after a frame that ran with `2^32 - 1` runs with `0`. -/
theorem update_accumulation_reset_witness :
    (callsSince (atSync exactWorld quietFrame startState)
          (atDispatch exactWorld quietFrame startState)
        = [.updateParams (atDispatch exactWorld quietFrame startState).params]
      ∧ (atDispatch exactWorld quietFrame startState).paramsUpdatePending = false
      ∧ (atDispatch exactWorld quietFrame startState).iteration = 0)
    ∧ (pushes (update exactWorld quietFrame (update exactWorld quietFrame startState)).log
        = pushes (update exactWorld quietFrame startState).log)
    ∧ ((atDispatch exactWorld quietFrame (update exactWorld quietFrame startState)).iteration
        = (atDispatch exactWorld quietFrame startState).iteration + 1
      ∧ (atDispatch exactWorld quietFrame (update exactWorld quietFrame startState)).iteration
        ≠ 0
      ∧ (atDispatch exactWorld quietFrame startState).iteration
        < (atDispatch exactWorld quietFrame
            (update exactWorld quietFrame startState)).iteration)
    ∧ (atDispatch exactWorld quietFrame (update exactWorld quietFrame lateState)).iteration
        = 0 :=
  have hclean : ∀ s : Tracer,
      (atSync exactWorld quietFrame (update exactWorld quietFrame s)).paramsUpdatePending
        = false := fun s => by
    rw [(atDispatch_quiet_clean exactWorld _ (update_paramsUpdatePending _ _ _)).1]
    exact update_paramsUpdatePending _ _ _
  ⟨(update_accumulation_reset exactWorld quietFrame quietFrame startState).2.1
      (atDispatch_quiet_dirty exactWorld startState rfl).1,
   ((update_accumulation_reset exactWorld quietFrame quietFrame startState).2.2
      (hclean startState)).2.1,
   ((update_accumulation_reset exactWorld quietFrame quietFrame startState).2.2
      (hclean startState)).2.2.2.1
      (by rw [(atDispatch_quiet_dirty exactWorld startState rfl).2.1]; decide),
   ((update_accumulation_reset exactWorld quietFrame quietFrame lateState).2.2
      (hclean lateState)).2.2.2.2
      (by rw [(atDispatch_quiet_clean exactWorld lateState rfl).2]; rfl)⟩

/-- C1 fails as stated: a frame that runs with the flag clear and the counter at
`2^32 - 1` is followed by a frame that, with the flag still clear, runs with the counter
at `0`, which is neither nonzero nor greater than before. -/
theorem update_accumulation_reset_counterexample :
    lateState.iteration + 1 = UINT_MOD
    ∧ (atSync exactWorld quietFrame lateState).paramsUpdatePending = false
    ∧ (atDispatch exactWorld quietFrame lateState).iteration = 4294967295
    ∧ (atSync exactWorld quietFrame
        (update exactWorld quietFrame lateState)).paramsUpdatePending = false
    ∧ (atDispatch exactWorld quietFrame (update exactWorld quietFrame lateState)).iteration = 0
    ∧ ¬ (∀ (W : World) (inp inp' : FrameInput) (s : Tracer), s.iteration < UINT_MOD →
          (atSync W inp' (update W inp s)).paramsUpdatePending = false →
          (atDispatch W inp' (update W inp s)).iteration ≠ 0
          ∧ (atDispatch W inp s).iteration < (atDispatch W inp' (update W inp s)).iteration) := by
  have h1 : (atSync exactWorld quietFrame lateState).paramsUpdatePending = false := by
    rw [(atDispatch_quiet_clean exactWorld lateState rfl).1]
    rfl
  have h2 : (atDispatch exactWorld quietFrame lateState).iteration = 4294967295 := by
    rw [(atDispatch_quiet_clean exactWorld lateState rfl).2]
    rfl
  have h3 : (atSync exactWorld quietFrame
      (update exactWorld quietFrame lateState)).paramsUpdatePending = false := by
    rw [(atDispatch_quiet_clean exactWorld _ (update_paramsUpdatePending _ _ _)).1]
    exact update_paramsUpdatePending _ _ _
  have h4 : (atDispatch exactWorld quietFrame
      (update exactWorld quietFrame lateState)).iteration = 0 := by
    rw [(atDispatch_quiet_clean exactWorld _ (update_paramsUpdatePending _ _ _)).2,
      update_iteration, h2]
    rfl
  refine ⟨rfl, h1, h2, h3, h4, ?_⟩
  intro h
  exact (h exactWorld quietFrame quietFrame lateState (by decide) h3).1 h4

/-- C2 fails as stated: the first frame of the start state enqueues the separate
wavefront kernels and leaves `frontBuffer` at `0`, and the same frame with `useMK` cleared
enqueues the megakernel and takes `frontBuffer` from `0` to `1`. -/
theorem update_frontBuffer_counterexample :
    (atDispatch exactWorld quietFrame startState).useMK = true
    ∧ (update exactWorld quietFrame startState).frontBuffer = startState.frontBuffer
    ∧ (atDispatch exactWorld quietFrame { startState with useMK := false }).useMK = false
    ∧ (update exactWorld quietFrame { startState with useMK := false }).frontBuffer
        = 1 - startState.frontBuffer
    ∧ ¬ (∀ (W : World) (inp : FrameInput) (s : Tracer),
          ((atDispatch W inp s).useMK = true → (update W inp s).frontBuffer = 1 - s.frontBuffer)
          ∧ ((atDispatch W inp s).useMK = false →
              (update W inp s).frontBuffer = s.frontBuffer)) := by
  have h1 : (atDispatch exactWorld quietFrame startState).useMK = true :=
    (atDispatch_quiet_dirty exactWorld startState rfl).2.2
  have h2 : (update exactWorld quietFrame startState).frontBuffer = startState.frontBuffer := by
    rw [update_frontBuffer_eq, h1]
    rfl
  have h3 : (atDispatch exactWorld quietFrame { startState with useMK := false }).useMK
      = false := (atDispatch_quiet_dirty exactWorld { startState with useMK := false } rfl).2.2
  have h4 : (update exactWorld quietFrame { startState with useMK := false }).frontBuffer
      = 1 - startState.frontBuffer := by
    rw [update_frontBuffer_eq, h3]
    rfl
  refine ⟨h1, h2, h3, h4, ?_⟩
  intro h
  have h5 := (h exactWorld quietFrame startState).1 h1
  rw [h2] at h5
  exact absurd h5 (by decide)

/-- Witness of C2 as amended: the first frame of the start state in either mode. -/
theorem update_frontBuffer_witness :
    ((update exactWorld quietFrame startState).frontBuffer = startState.frontBuffer
      ∧ (callsSince (dispatch (atDispatch exactWorld quietFrame startState))
            (update exactWorld quietFrame startState)).take 2
          = [.finishQueue, .drawPixelBuffer])
    ∧ (callsSince (atDispatch exactWorld quietFrame { startState with useMK := false })
          (dispatch (atDispatch exactWorld quietFrame { startState with useMK := false }))
        = [.enqueueMegaKernel
            (atDispatch exactWorld quietFrame { startState with useMK := false }).params
            startState.frontBuffer
            (atDispatch exactWorld quietFrame { startState with useMK := false }).iteration]
      ∧ (update exactWorld quietFrame { startState with useMK := false }).frontBuffer
          = 1 - startState.frontBuffer
      ∧ (callsSince (dispatch (atDispatch exactWorld quietFrame
              { startState with useMK := false }))
            (update exactWorld quietFrame { startState with useMK := false })).take 2
          = [.finishQueue, .drawTexture startState.frontBuffer]) :=
  ⟨(update_frontBuffer exactWorld quietFrame startState).1
      (atDispatch_quiet_dirty exactWorld startState rfl).2.2,
   (update_frontBuffer exactWorld quietFrame { startState with useMK := false }).2
      (atDispatch_quiet_dirty exactWorld { startState with useMK := false } rfl).2.2⟩

/-- Witness of C4: the first frame of the start state. -/
theorem update_wavefront_preview_witness :
    (callsSince (atDispatch exactWorld quietFrame startState)
          (update exactWorld quietFrame startState)).takeWhile
        (fun c => decide (c ≠ Call.finishQueue))
      = [ .enqueueResetKernel (atDispatch exactWorld quietFrame startState).params,
          .enqueueRayGenKernel (atDispatch exactWorld quietFrame startState).params,
          .enqueueNextVertexKernel (atDispatch exactWorld quietFrame startState).params,
          .enqueueExplSampleKernel (atDispatch exactWorld quietFrame startState).params 0,
          .enqueueNextVertexKernel (atDispatch exactWorld quietFrame startState).params,
          .enqueueExplSampleKernel (atDispatch exactWorld quietFrame startState).params 1,
          .enqueueSplatPreviewKernel (atDispatch exactWorld quietFrame startState).params ]
    ∧ Call.finishQueue ∈ callsSince (atDispatch exactWorld quietFrame startState)
        (update exactWorld quietFrame startState) :=
  update_wavefront_preview exactWorld quietFrame startState
    (atDispatch_quiet_dirty exactWorld startState rfl).2.2
    (atDispatch_quiet_dirty exactWorld startState rfl).2.1

/-- Witness of C5: the second frame of the start state, which runs with the counter
at `1`. -/
theorem update_wavefront_full_witness :
    (callsSince (atDispatch exactWorld quietFrame (update exactWorld quietFrame startState))
          (update exactWorld quietFrame (update exactWorld quietFrame startState))).takeWhile
        (fun c => decide (c ≠ Call.finishQueue))
      = [ .enqueueRayGenKernel
            (atDispatch exactWorld quietFrame (update exactWorld quietFrame startState)).params,
          .enqueueNextVertexKernel
            (atDispatch exactWorld quietFrame (update exactWorld quietFrame startState)).params,
          .enqueueExplSampleKernel
            (atDispatch exactWorld quietFrame (update exactWorld quietFrame startState)).params
            (atDispatch exactWorld quietFrame
              (update exactWorld quietFrame startState)).iteration,
          .enqueueSplatKernel
            (atDispatch exactWorld quietFrame (update exactWorld quietFrame startState)).params
            (atDispatch exactWorld quietFrame
              (update exactWorld quietFrame startState)).frontBuffer ]
    ∧ Call.finishQueue
        ∈ callsSince (atDispatch exactWorld quietFrame (update exactWorld quietFrame startState))
          (update exactWorld quietFrame (update exactWorld quietFrame startState)) :=
  update_wavefront_full exactWorld quietFrame (update exactWorld quietFrame startState)
    (by
      rw [(atDispatch_quiet_clean exactWorld _ (update_paramsUpdatePending _ _ _)).2,
        update_eq, endFrame_useMK, (dispatch_fields _).2.2]
      exact (atDispatch_quiet_dirty exactWorld startState rfl).2.2)
    (by
      rw [(atDispatch_quiet_clean exactWorld _ (update_paramsUpdatePending _ _ _)).2,
        update_iteration, (atDispatch_quiet_dirty exactWorld startState rfl).2.1]
      decide)

/-! ## Keys: claims -/

/-- C3: after `handleKeypress(key)` the flag `paramsUpdatePending` is set exactly when
`key` is one of the force-reinit keys or the flag was set before; for F2, F5 and every
other key that is not force-reinit the flag is what it was; and no key changes the
iteration counter. -/
theorem handleKeypress_taxonomy (W : World) (o : Oracle) (key : Int) (s : Tracer) :
    ((handleKeypress W o key s).paramsUpdatePending = true
      ↔ key ∈ forceInitKeys ∨ s.paramsUpdatePending = true)
    ∧ (key ∉ forceInitKeys →
        (handleKeypress W o key s).paramsUpdatePending = s.paramsUpdatePending
        ∧ (handleKeypress W o key s).iteration = s.iteration)
    ∧ (handleKeypress W o key s).iteration = s.iteration
    ∧ GLFW_KEY_F2 ∉ forceInitKeys ∧ GLFW_KEY_F5 ∉ forceInitKeys := by
  have hit := (handleKeypress_kept W o key s).1
  have hP : (key ∈ forceInitKeys → (handleKeypress W o key s).paramsUpdatePending = true)
      ∧ (key ∉ forceInitKeys →
          (handleKeypress W o key s).paramsUpdatePending = s.paramsUpdatePending) := by
    apply handleKeypress_cases (fun t => (key ∈ forceInitKeys → t.paramsUpdatePending = true)
      ∧ (key ∉ forceInitKeys → t.paramsUpdatePending = s.paramsUpdatePending))
    · exact fun hk => ⟨fun _ => rfl, fun hn => absurd (by rw [hk]; simp [forceInitKeys]) hn⟩
    · exact fun hk => ⟨fun _ => rfl, fun hn => absurd (by rw [hk]; simp [forceInitKeys]) hn⟩
    · exact fun hk => ⟨fun _ => rfl, fun hn => absurd (by rw [hk]; simp [forceInitKeys]) hn⟩
    · exact fun hk => ⟨fun _ => rfl, fun hn => absurd (by rw [hk]; simp [forceInitKeys]) hn⟩
    · exact fun hk => ⟨fun _ => rfl, fun hn => absurd (by rw [hk]; simp [forceInitKeys]) hn⟩
    · exact fun hk => ⟨fun _ => rfl, fun hn => absurd (by rw [hk]; simp [forceInitKeys]) hn⟩
    · exact fun hk => ⟨fun _ => rfl, fun hn => absurd (by rw [hk]; simp [forceInitKeys]) hn⟩
    · exact fun hk => ⟨fun _ => rfl, fun hn => absurd (by rw [hk]; simp [forceInitKeys]) hn⟩
    · exact fun hk => ⟨fun _ => rfl, fun hn => absurd (by rw [hk]; simp [forceInitKeys]) hn⟩
    · exact fun hk => ⟨fun _ => rfl, fun hn => absurd (by rw [hk]; simp [forceInitKeys]) hn⟩
    · exact fun hk => ⟨fun _ => rfl, fun hn => absurd (by rw [hk]; simp [forceInitKeys]) hn⟩
    · exact fun hk => ⟨fun _ => rfl, fun hn => absurd (by rw [hk]; simp [forceInitKeys]) hn⟩
    · exact fun hk => ⟨fun _ => rfl, fun hn => absurd (by rw [hk]; simp [forceInitKeys]) hn⟩
    · exact fun hk => ⟨fun _ => rfl, fun hn => absurd (by rw [hk]; simp [forceInitKeys]) hn⟩
    · intro hk
      refine ⟨fun hm => absurd hm (by rw [hk]; decide), fun _ => ?_⟩
      rw [matchKeep, saveState_eq]
    · intro hk
      exact ⟨fun hm => absurd hm (by rw [hk]; decide), fun _ => rfl⟩
    · exact fun hn _ _ => ⟨fun hm => absurd hm hn, fun _ => rfl⟩
  refine ⟨?_, fun hn => ⟨hP.2 hn, hit⟩, hit, by decide, by decide⟩
  constructor
  · intro h
    by_cases hm : key ∈ forceInitKeys
    · exact Or.inl hm
    · exact Or.inr (by rw [← hP.2 hm]; exact h)
  · rintro (hm | hs)
    · exact hP.1 hm
    · by_cases hm : key ∈ forceInitKeys
      · exact hP.1 hm
      · rw [hP.2 hm]; exact hs

/-- Witness of C3: F2 on a tracer whose flag is clear leaves flag and counter alone. -/
theorem handleKeypress_taxonomy_witness :
    (handleKeypress exactWorld ⟨none, 0⟩ GLFW_KEY_F2
        { startState with paramsUpdatePending := false, iteration := 7 }).paramsUpdatePending
      = false
    ∧ (handleKeypress exactWorld ⟨none, 0⟩ GLFW_KEY_F2
        { startState with paramsUpdatePending := false, iteration := 7 }).iteration = 7 :=
  (handleKeypress_taxonomy exactWorld ⟨none, 0⟩ GLFW_KEY_F2
    { startState with paramsUpdatePending := false, iteration := 7 }).2.1 (by decide)

/-! ## Saved state: claims -/

theorem foldl_write_cells (W : World) (s : Tracer) (l : List Item) (st : Stream) :
    l.foldl (fun p it => rw W .WRITE it p) (st, s)
      = (⟨st.cells ++ l.map (fun it => it.get s)⟩, s) := by
  induction l generalizing st with
  | nil => simp
  | cons it l ih =>
    have h : rw W .WRITE it (st, s) = (⟨st.cells ++ [it.get s]⟩, s) := rfl
    rw [List.foldl_cons, h, ih]
    simp

/-- When the state file can be opened for writing, `saveState` leaves on disk, at the
path of the scene, the persisted members in the order of `stateItems`. -/
theorem saveState_disk (W : World) (s : Tracer) (hw : s.disk.statesWritable = true) :
    (saveState W s).disk.find (statePath s.sceneHash)
      = some (stateItems.map (fun it => it.get s)) := by
  simp [saveState, iterateStateItems, Stream.open, hw, foldl_write_cells, Stream.close,
    Disk.store, Disk.find, List.lookup]

/-- C6: when `saveState` on `s` can open the state file, and `loadState` runs on a tracer
`s'` with the same scene hash and the disk `saveState` left, every persisted member of the
result has the value it has in `s`. -/
theorem state_round_trip (W : World) (s s' : Tracer)
    (hhash : s'.sceneHash = s.sceneHash)
    (hw : s.disk.statesWritable = true)
    (hdisk : s'.disk = (saveState W s).disk) :
    (loadState W s').cameraRotation.x = s.cameraRotation.x
    ∧ (loadState W s').cameraRotation.y = s.cameraRotation.y
    ∧ (loadState W s').cameraSpeed = s.cameraSpeed
    ∧ (loadState W s').params.camera.fov = s.params.camera.fov
    ∧ (loadState W s').params.camera.dir = s.params.camera.dir
    ∧ (loadState W s').params.camera.pos = s.params.camera.pos
    ∧ (loadState W s').params.camera.right = s.params.camera.right
    ∧ (loadState W s').params.camera.up = s.params.camera.up
    ∧ (loadState W s').params.areaLight.N = s.params.areaLight.N
    ∧ (loadState W s').params.areaLight.pos = s.params.areaLight.pos
    ∧ (loadState W s').params.areaLight.right = s.params.areaLight.right
    ∧ (loadState W s').params.areaLight.up = s.params.areaLight.up
    ∧ (loadState W s').params.areaLight.E = s.params.areaLight.E
    ∧ (loadState W s').params.areaLight.size.x = s.params.areaLight.size.x
    ∧ (loadState W s').params.areaLight.size.y = s.params.areaLight.size.y
    ∧ (loadState W s').params.envMapStrength = s.params.envMapStrength
    ∧ (loadState W s').params.maxBounces = s.params.maxBounces
    ∧ (loadState W s').params.useAreaLight = s.params.useAreaLight
    ∧ (loadState W s').params.useEnvMap = s.params.useEnvMap
    ∧ (loadState W s').params.sampleExpl = s.params.sampleExpl
    ∧ (loadState W s').params.sampleImpl = s.params.sampleImpl := by
  have hfind := saveState_disk W s hw
  rw [← hdisk, ← hhash] at hfind
  simp only [loadState, iterateStateItems, Stream.open, hfind, Option.map_some']
  simp [stateItems, vecItems, rw, Item.ofFlt, Item.ofUInt, Cell.toFlt, Cell.toUInt]

/-- Witness of C6: the start state is saved, the tracer moves on, and loading brings the
members back. -/
theorem state_round_trip_witness :
    (loadState exactWorld movedState).cameraRotation.x = 0
    ∧ (loadState exactWorld movedState).cameraRotation.y = 0
    ∧ (loadState exactWorld movedState).cameraSpeed = 1
    ∧ (loadState exactWorld movedState).params.camera.pos = ⟨0, 1, 7 / 2⟩
    ∧ (loadState exactWorld movedState).params.maxBounces = 4
    ∧ (loadState exactWorld movedState).params.sampleImpl = 1 :=
  have h := state_round_trip exactWorld startState movedState rfl rfl rfl
  ⟨h.1, h.2.1, h.2.2.1, h.2.2.2.2.2.1, h.2.2.2.2.2.2.2.2.2.2.2.2.2.2.2.2.1,
    h.2.2.2.2.2.2.2.2.2.2.2.2.2.2.2.2.2.2.2.2⟩

/-! ## Scroll, light re-aim and sampling toggle: claims -/

/-- C12: after `handleMouseScroll(yoffset)` the camera speed lies between the floats
`1e-3f` and `1e6f`; it is the clamp to that interval of the float `cameraSpeed * 1.2f`
when `yoffset > 0` and of the float `cameraSpeed / 1.2f` otherwise. -/
theorem handleMouseScroll_clamp (W : World) (hW : W.Rounds) (yoffset : Flt) (s : Tracer) :
    W.rnd (1 / 1000) ≤ (handleMouseScroll W yoffset s).cameraSpeed
    ∧ (handleMouseScroll W yoffset s).cameraSpeed ≤ 1000000
    ∧ (yoffset > 0 → (handleMouseScroll W yoffset s).cameraSpeed
        = max (W.rnd (1 / 1000)) (min 1000000 (fmul W s.cameraSpeed (W.rnd (6 / 5)))))
    ∧ (¬ yoffset > 0 → (handleMouseScroll W yoffset s).cameraSpeed
        = max (W.rnd (1 / 1000)) (min 1000000 (fdiv W s.cameraSpeed (W.rnd (6 / 5))))) := by
  have hhi : W.rnd (1000000 : ℚ) = 1000000 := by
    simpa using hW.exact_int 1000000 (by norm_num)
  have hlo : W.rnd (1 / 1000) ≤ 1000000 := by
    have := hW.mono (show (1 / 1000 : ℚ) ≤ 1000000 by norm_num)
    rwa [hhi] at this
  refine ⟨le_max_left _ _, max_le hlo (min_le_left _ _), ?_, ?_⟩
  · intro h
    simp [handleMouseScroll, h]
  · intro h
    simp [handleMouseScroll, h]

/-- Witness of C12: one scroll up and one scroll down at speed `1`, rounding to the
grid. -/
theorem handleMouseScroll_clamp_witness :
    (gridWorld.rnd (1 / 1000) ≤ (handleMouseScroll gridWorld 1 startState).cameraSpeed
      ∧ (handleMouseScroll gridWorld 1 startState).cameraSpeed ≤ 1000000
      ∧ (handleMouseScroll gridWorld 1 startState).cameraSpeed
        = max (gridWorld.rnd (1 / 1000))
            (min 1000000 (fmul gridWorld startState.cameraSpeed (gridWorld.rnd (6 / 5)))))
    ∧ (handleMouseScroll gridWorld (-1) startState).cameraSpeed
        = max (gridWorld.rnd (1 / 1000))
            (min 1000000 (fdiv gridWorld startState.cameraSpeed (gridWorld.rnd (6 / 5)))) :=
  ⟨⟨(handleMouseScroll_clamp gridWorld gridWorld_rounds 1 startState).1,
     (handleMouseScroll_clamp gridWorld gridWorld_rounds 1 startState).2.1,
     (handleMouseScroll_clamp gridWorld gridWorld_rounds 1 startState).2.2.1 (by norm_num)⟩,
   (handleMouseScroll_clamp gridWorld gridWorld_rounds (-1) startState).2.2.2 (by norm_num)⟩

/-- C13: `updateAreaLight` gives the area light the camera's `dir` as normal, the
camera's `right` and `up`, and the position `camera.pos - 0.01f * camera.dir` in float
arithmetic; the camera, the light's `E` and `size`, and everything else stay. -/
theorem updateAreaLight_reaim (W : World) (s : Tracer) :
    (updateAreaLight W s).params.areaLight.N = s.params.camera.dir
    ∧ (updateAreaLight W s).params.areaLight.right = s.params.camera.right
    ∧ (updateAreaLight W s).params.areaLight.up = s.params.camera.up
    ∧ (updateAreaLight W s).params.areaLight.pos
        = Vec3.sub W s.params.camera.pos (Vec3.scale W (W.rnd (1 / 100)) s.params.camera.dir)
    ∧ (updateAreaLight W s).params.camera = s.params.camera
    ∧ (updateAreaLight W s).params.areaLight.E = s.params.areaLight.E
    ∧ (updateAreaLight W s).params.areaLight.size = s.params.areaLight.size
    ∧ updateAreaLight W s = { s with params.areaLight :=
        { s.params.areaLight with
          N := (updateAreaLight W s).params.areaLight.N
          right := (updateAreaLight W s).params.areaLight.right
          up := (updateAreaLight W s).params.areaLight.up
          pos := (updateAreaLight W s).params.areaLight.pos } } :=
  ⟨rfl, rfl, rfl, rfl, rfl, rfl, rfl, rfl⟩

/-- C16: whatever `sampleImpl` and `sampleExpl` hold, after one `toggleSamplingMode` at
least one of them is nonzero, so the pair reads as explicit only, implicit only or both;
from there each call gives the next mode of the cycle, and after a second call both
members hold `0` or `1`. -/
theorem toggleSamplingMode_never_off (s : Tracer) :
    ((toggleSamplingMode s).params.sampleImpl ≠ 0 ∨ (toggleSamplingMode s).params.sampleExpl ≠ 0)
    ∧ (((toggleSamplingMode s).params.sampleImpl = 0
          ∧ (toggleSamplingMode s).params.sampleExpl ≠ 0)
      ∨ ((toggleSamplingMode s).params.sampleImpl ≠ 0
          ∧ (toggleSamplingMode s).params.sampleExpl = 0)
      ∨ ((toggleSamplingMode s).params.sampleImpl ≠ 0
          ∧ (toggleSamplingMode s).params.sampleExpl ≠ 0))
    ∧ (s.params.sampleImpl ≠ 0 → s.params.sampleExpl ≠ 0 →
        (toggleSamplingMode s).params.sampleImpl = 0
        ∧ (toggleSamplingMode s).params.sampleExpl ≠ 0)
    ∧ (s.params.sampleImpl = 0 → s.params.sampleExpl ≠ 0 →
        (toggleSamplingMode s).params.sampleImpl ≠ 0
        ∧ (toggleSamplingMode s).params.sampleExpl = 0)
    ∧ (s.params.sampleImpl ≠ 0 → s.params.sampleExpl = 0 →
        (toggleSamplingMode s).params.sampleImpl ≠ 0
        ∧ (toggleSamplingMode s).params.sampleExpl ≠ 0)
    ∧ ((toggleSamplingMode (toggleSamplingMode s)).params.sampleImpl ≤ 1
        ∧ (toggleSamplingMode (toggleSamplingMode s)).params.sampleExpl ≤ 1) := by
  obtain ⟨⟨w, h, nl, no, nt, ue, ua, es, fl, mb, si, se, wr, cam, al⟩, _⟩ := s
  by_cases h1 : si = 0 <;> by_cases h2 : se = 0 <;> simp [toggleSamplingMode, h1, h2]

/-- Witness of C16: from both off the call gives explicit only; from the values `2` and
`3` it gives explicit only, then implicit only, then both. -/
theorem toggleSamplingMode_never_off_witness :
    ((toggleSamplingMode
          { startState with params.sampleImpl := 0, params.sampleExpl := 0 }).params.sampleImpl
        ≠ 0
      ∨ (toggleSamplingMode
          { startState with params.sampleImpl := 0, params.sampleExpl := 0 }).params.sampleExpl
        ≠ 0)
    ∧ ((toggleSamplingMode
          { startState with params.sampleImpl := 2, params.sampleExpl := 3 }).params.sampleImpl
        = 0
      ∧ (toggleSamplingMode
          { startState with params.sampleImpl := 2, params.sampleExpl := 3 }).params.sampleExpl
        ≠ 0)
    ∧ ((toggleSamplingMode
          { startState with params.sampleImpl := 0, params.sampleExpl := 3 }).params.sampleImpl
        ≠ 0
      ∧ (toggleSamplingMode
          { startState with params.sampleImpl := 0, params.sampleExpl := 3 }).params.sampleExpl
        = 0)
    ∧ ((toggleSamplingMode
          { startState with params.sampleImpl := 1, params.sampleExpl := 0 }).params.sampleImpl
        ≠ 0
      ∧ (toggleSamplingMode
          { startState with params.sampleImpl := 1, params.sampleExpl := 0 }).params.sampleExpl
        ≠ 0) :=
  ⟨(toggleSamplingMode_never_off
      { startState with params.sampleImpl := 0, params.sampleExpl := 0 }).1,
   (toggleSamplingMode_never_off
      { startState with params.sampleImpl := 2, params.sampleExpl := 3 }).2.2.1
      (by decide) (by decide),
   (toggleSamplingMode_never_off
      { startState with params.sampleImpl := 0, params.sampleExpl := 3 }).2.2.2.1
      rfl (by decide),
   (toggleSamplingMode_never_off
      { startState with params.sampleImpl := 1, params.sampleExpl := 0 }).2.2.2.2.1
      (by decide) rfl⟩

/-! ## The compute context: claims -/

/-- The global work size is the work-group size times the quotient of the integer
division: `std::ceil` sees an integer and does nothing. -/
theorem CLContext.global_eq (localSize : Nat) :
    CLContext.global localSize = localSize * (CLContext.count / localSize) := by
  have h1 : CLContext.count / localSize ≤ CLContext.count := Nat.div_le_self _ _
  have h2 : localSize * (CLContext.count / localSize) ≤ CLContext.count :=
    Nat.mul_div_le _ _
  have hc : CLContext.count < SIZE_MOD := by
    norm_num [CLContext.count, SIZE_MOD]
  simp only [CLContext.global, CLContext.numLocalGroups, Int.ceil_natCast, Int.toNat_ofNat]
  rw [Nat.mod_eq_of_lt (lt_of_le_of_lt h1 hc), Nat.mod_eq_of_lt (lt_of_le_of_lt h2 hc)]

/-- The global work size is a multiple of the work-group size and never exceeds `count`;
it reaches `count` exactly when the work-group size divides `count`. -/
theorem CLContext.global_covers_iff (localSize : Nat) :
    localSize ∣ CLContext.global localSize
    ∧ CLContext.global localSize ≤ CLContext.count
    ∧ (CLContext.count ≤ CLContext.global localSize ↔ localSize ∣ CLContext.count) := by
  rw [CLContext.global_eq]
  refine ⟨Dvd.intro _ rfl, Nat.mul_div_le _ _, ?_⟩
  constructor
  · intro h
    exact ⟨CLContext.count / localSize, le_antisymm h (Nat.mul_div_le _ _)⟩
  · intro h
    rw [Nat.mul_div_cancel' h]

/-- C14 fails on the code: for the work-group size `512` the global work size is
`479744`, a multiple of `512` but less than `count = 480000`; for `1024` it is `479232`;
for `256`, which divides `count`, it is `480000`. -/
theorem CLContext.global_short :
    CLContext.count = 480000
    ∧ CLContext.global 512 = 479744
    ∧ CLContext.global 512 < CLContext.count
    ∧ 512 ∣ CLContext.global 512
    ∧ CLContext.global 1024 = 479232
    ∧ CLContext.global 256 = 480000 := by
  simp only [CLContext.global_eq]
  norm_num [CLContext.count]

theorem wrapInt32_of_range (n : Int) (h1 : -2 ^ 31 ≤ n) (h2 : n < 2 ^ 31) :
    wrapInt32 n = n := by
  unfold wrapInt32
  norm_num at h1 h2 ⊢
  omega

theorem wrapInt32_neg_min : wrapInt32 (2 ^ 31) = -2 ^ 31 := by
  norm_num [wrapInt32]

theorem CLContext.errors_length : CLContext.errors.length = 64 := rfl

/-- C15: `errorString` never reads outside its table of 64 entries.  For a 32-bit `err`
it reads entry `-err` when `0 <= -err < 64` and returns `"unknown!"` otherwise, so for
every `err > 0` and every `err < -63`.  Every error code of OpenCL from `0` to `-12` and
from `-30` to `-63` gets its own name, and the codes from `-13` to `-29` get the empty
string. -/
theorem CLContext.errorString_table :
    (∀ err : Int, -2 ^ 31 ≤ err → err < 2 ^ 31 →
      (∃ name, CLContext.errorString err = some name)
      ∧ (0 ≤ -err ∧ -err < 64 →
          (-err).toNat < CLContext.errors.length
          ∧ CLContext.errorString err = CLContext.errors[(-err).toNat]?)
      ∧ (¬ (0 ≤ -err ∧ -err < 64) → CLContext.errorString err = some "unknown!")
      ∧ (0 < err → CLContext.errorString err = some "unknown!")
      ∧ (err < -63 → CLContext.errorString err = some "unknown!"))
    ∧ CLContext.errorString 0 = some "CL_SUCCESS"
    ∧ CLContext.errorString (-1) = some "CL_DEVICE_NOT_FOUND"
    ∧ CLContext.errorString (-12) = some "CL_MAP_FAILURE"
    ∧ CLContext.errorString (-30) = some "CL_INVALID_VALUE"
    ∧ CLContext.errorString (-63) = some "CL_INVALID_GLOBAL_WORK_SIZE"
    ∧ (∀ p ∈ clErrorCodes, CLContext.errorString p.1 = some p.2)
    ∧ (∀ err : Int, (0 ≤ -err ∧ -err ≤ 12) ∨ (30 ≤ -err ∧ -err ≤ 63) →
        err ∈ clErrorCodes.map Prod.fst)
    ∧ (∀ err : Int, -29 ≤ err → err ≤ -13 → CLContext.errorString err = some "") := by
  have hin : ∀ err : Int, -2 ^ 31 ≤ err → err < 2 ^ 31 → 0 ≤ -err ∧ -err < 64 →
      (-err).toNat < CLContext.errors.length
      ∧ CLContext.errorString err = CLContext.errors[(-err).toNat]? := by
    intro err h1 h2 h
    have hw : wrapInt32 (-err) = -err := by
      apply wrapInt32_of_range <;> norm_num at h1 h2 ⊢ <;> omega
    refine ⟨by rw [CLContext.errors_length]; omega, ?_⟩
    simp only [CLContext.errorString, hw, CLContext.SIZE]
    rw [if_pos ⟨h.1, h.2⟩]
  have hout : ∀ err : Int, -2 ^ 31 ≤ err → err < 2 ^ 31 → ¬ (0 ≤ -err ∧ -err < 64) →
      CLContext.errorString err = some "unknown!" := by
    intro err h1 h2 h
    by_cases hmin : err = -2 ^ 31
    · subst hmin
      have : wrapInt32 (-(-2 ^ 31)) = -2 ^ 31 := by
        rw [neg_neg]
        exact wrapInt32_neg_min
      simp only [CLContext.errorString, this, CLContext.SIZE]
      norm_num
    · have hw : wrapInt32 (-err) = -err := by
        apply wrapInt32_of_range <;> norm_num at h1 h2 hmin ⊢ <;> omega
      simp only [CLContext.errorString, hw, CLContext.SIZE]
      rw [if_neg]
      simpa using h
  refine ⟨?_, by decide, by decide, by decide, by decide, by decide, by decide, ?_, ?_⟩
  · intro err h1 h2
    refine ⟨?_, hin err h1 h2, hout err h1 h2, ?_, ?_⟩
    · by_cases h : 0 ≤ -err ∧ -err < 64
      · obtain ⟨hlt, he⟩ := hin err h1 h2 h
        exact ⟨CLContext.errors[(-err).toNat], by rw [he, List.getElem?_eq_getElem hlt]⟩
      · exact ⟨_, hout err h1 h2 h⟩
    · intro h
      exact hout err h1 h2 (by omega)
    · intro h
      exact hout err h1 h2 (by omega)
  · intro err h
    have h1 : -63 ≤ err := by omega
    have h2 : err ≤ 0 := by omega
    interval_cases err <;> first | (exfalso; omega) | decide
  · intro err h1 h2
    interval_cases err <;> decide

/-- Witness of C15: the codes `-5`, `7`, `-100` and `-20`. -/
theorem CLContext.errorString_table_witness :
    ((-(-5 : Int)).toNat < CLContext.errors.length
      ∧ CLContext.errorString (-5) = CLContext.errors[(-(-5 : Int)).toNat]?)
    ∧ CLContext.errorString 7 = some "unknown!"
    ∧ CLContext.errorString (-100) = some "unknown!"
    ∧ CLContext.errorString (-20) = some "" :=
  ⟨(CLContext.errorString_table.1 (-5) (by norm_num) (by norm_num)).2.1 (by norm_num),
   (CLContext.errorString_table.1 7 (by norm_num) (by norm_num)).2.2.2.1 (by norm_num),
   (CLContext.errorString_table.1 (-100) (by norm_num) (by norm_num)).2.2.2.2 (by norm_num),
   CLContext.errorString_table.2.2.2.2.2.2.2.2 (-20) (by norm_num) (by norm_num)⟩

/-! ## Scene load without environment map: claims -/

theorem foldl_read_proj {α : Type} (W : World) (proj : Tracer → α) (l : List Item)
    (hl : ∀ it ∈ l, ∀ (c : Cell) (s : Tracer), proj (it.set W c s) = proj s)
    (p : Stream × Tracer) :
    proj (l.foldl (fun p it => rw W .READ it p) p).2 = proj p.2 := by
  induction l generalizing p with
  | nil => rfl
  | cons it l ih =>
    simp only [List.foldl_cons]
    rw [ih (fun i hi => hl i (List.mem_cons_of_mem _ hi))]
    simp only [rw]
    split
    · rfl
    · exact hl it (List.mem_cons_self _ _) _ _

/-- `loadState` touches neither `hasEnvMap` nor the scene. -/
theorem loadState_hasEnvMap_scene (W : World) (s : Tracer) :
    (loadState W s).hasEnvMap = s.hasEnvMap ∧ (loadState W s).scene = s.scene := by
  simp only [loadState, iterateStateItems]
  cases h : Stream.open .READ (statePath s.sceneHash) s.disk with
  | none => exact ⟨rfl, rfl⟩
  | some stream =>
    exact ⟨foldl_read_proj W (fun t => t.hasEnvMap) stateItems
        (by simp [stateItems, vecItems, Item.ofFlt, Item.ofUInt]) (stream, s),
      foldl_read_proj W (fun t => t.scene) stateItems
        (by simp [stateItems, vecItems, Item.ofFlt, Item.ofUInt]) (stream, s)⟩

theorem loadState_of_none (W : World) (s : Tracer)
    (h : s.disk.find (statePath s.sceneHash) = none) : loadState W s = s := by
  simp [loadState, iterateStateItems, Stream.open, h]

/-- What `loadState` gives `useEnvMap` when the file holds the members of `s`. -/
theorem loadState_useEnvMap_of_saved (W : World) (s s' : Tracer)
    (h : s'.disk.find (statePath s'.sceneHash) = some (stateItems.map (fun it => it.get s))) :
    (loadState W s').params.useEnvMap = s.params.useEnvMap := by
  simp only [loadState, iterateStateItems, Stream.open, h, Option.map_some']
  simp [stateItems, vecItems, rw, Item.ofFlt, Item.ofUInt, Cell.toFlt, Cell.toUInt]

theorem init_eq (W : World) (o : Oracle) (width height : Int) (sceneFile : String)
    (s : Tracer) :
    init W o width height sceneFile s
      = call (.uploadSceneData
            (initHierarchy W (initEnvMap W
              (loadState W (beforeLoadState W o width height sceneFile s)))).scene)
          { initHierarchy W (initEnvMap W
              (loadState W (beforeLoadState W o width height sceneFile s))) with
            params.worldRadius := fmul W (W.boundsDiagonal
              (initHierarchy W (initEnvMap W
                (loadState W (beforeLoadState W o width height sceneFile s)))).scene)
              (1 / 2) } := rfl

/-- On a scene without a valid environment map, `init` leaves in `useEnvMap` and
`useAreaLight` what `loadState` put there, and in `hasEnvMap` what it held before. -/
theorem init_of_invalid (W : World) (o : Oracle) (width height : Int) (sceneFile : String)
    (s : Tracer) (hmap : W.envMapValid (chosenScene o sceneFile) = false) :
    (init W o width height sceneFile s).params.useEnvMap
      = (loadState W (beforeLoadState W o width height sceneFile s)).params.useEnvMap
    ∧ (init W o width height sceneFile s).params.useAreaLight
      = (loadState W (beforeLoadState W o width height sceneFile s)).params.useAreaLight
    ∧ (init W o width height sceneFile s).hasEnvMap = s.hasEnvMap := by
  have hs : (loadState W (beforeLoadState W o width height sceneFile s)).scene
      = chosenScene o sceneFile := (loadState_hasEnvMap_scene W _).2
  have hh : (loadState W (beforeLoadState W o width height sceneFile s)).hasEnvMap
      = s.hasEnvMap := (loadState_hasEnvMap_scene W _).1
  have he : initEnvMap W (loadState W (beforeLoadState W o width height sceneFile s))
      = loadState W (beforeLoadState W o width height sceneFile s) := by
    simp [initEnvMap, hs, hmap]
  rw [init_eq, he]
  refine ⟨?_, ?_, ?_⟩
  · simp only [call_params, initHierarchy, setTriangles]
    split_ifs <;> rfl
  · simp only [call_params, initHierarchy, setTriangles]
    split_ifs <;> rfl
  · rw [← hh]
    simp only [call, initHierarchy, setTriangles]
    split_ifs <;> rfl

theorem foldl_read_cells (W : World) (l : List Item) (cs : List Cell) (s : Tracer) :
    (l.foldl (fun p it => rw W .READ it p) (⟨cs⟩, s)).1.cells = cs.drop l.length := by
  induction l generalizing cs s with
  | nil => rfl
  | cons it l ih =>
    cases cs with
    | nil =>
      have h : rw W .READ it (⟨[]⟩, s) = (⟨[]⟩, s) := rfl
      rw [List.foldl_cons, h, ih]
      simp
    | cons c rest =>
      have h : rw W .READ it (⟨c :: rest⟩, s) = (⟨rest⟩, it.set W c s) := rfl
      rw [List.foldl_cons, h, ih]
      simp

theorem stateItems_split :
    stateItems = stateItems.take 36
      ++ Item.ofUInt (fun s => s.params.useEnvMap) (fun v s => { s with params.useEnvMap := v })
      :: stateItems.drop 37 := rfl

theorem stateItems_take_useEnvMap (W : World) :
    ∀ it ∈ stateItems.take 36, ∀ (c : Cell) (s : Tracer),
      (it.set W c s).params.useEnvMap = s.params.useEnvMap := by
  simp [stateItems, vecItems, Item.ofFlt, Item.ofUInt]

theorem stateItems_drop_useEnvMap (W : World) :
    ∀ it ∈ stateItems.drop 37, ∀ (c : Cell) (s : Tracer),
      (it.set W c s).params.useEnvMap = s.params.useEnvMap := by
  simp [stateItems, vecItems, Item.ofFlt, Item.ofUInt]

/-- What `loadState` leaves in `useEnvMap`: the 37th item of the state file of the
scene, and without such an item the value it held. -/
theorem loadState_useEnvMap (W : World) (s : Tracer) :
    (loadState W s).params.useEnvMap
      = match savedUseEnvMap s.disk (statePath s.sceneHash) with
        | some c => c.toUInt W
        | none => s.params.useEnvMap := by
  simp only [loadState, iterateStateItems, Stream.open, savedUseEnvMap]
  cases hf : s.disk.find (statePath s.sceneHash) with
  | none => rfl
  | some cells =>
    simp only [Option.map_some', Option.some_bind]
    rw [stateItems_split, List.foldl_append, List.foldl_cons]
    rw [foldl_read_proj W (fun t => t.params.useEnvMap) _ (stateItems_drop_useEnvMap W)]
    have hc := foldl_read_cells W (stateItems.take 36) cells s
    have hp := foldl_read_proj W (fun t => t.params.useEnvMap) _
      (stateItems_take_useEnvMap W) (⟨cells⟩, s)
    have hlen : (stateItems.take 36).length = 36 := rfl
    rw [hlen] at hc
    generalize List.foldl (fun p it => rw W .READ it p) (⟨cells⟩, s) (stateItems.take 36) = q
      at hc hp ⊢
    obtain ⟨⟨qc⟩, qs⟩ := q
    simp only at hc hp
    subst hc
    cases hd : cells.drop 36 with
    | nil =>
      have : cells[36]? = none := by
        rw [List.getElem?_eq_none_iff]
        exact List.drop_eq_nil_iff.mp hd
      rw [this]
      exact hp
    | cons c rest =>
      have : cells[36]? = some c := by
        rw [← List.head?_drop, hd]
        rfl
      rw [this]
      rfl

/-- C11, as the code has it: on a scene without a valid environment map, from a tracer
whose `hasEnvMap` is clear, and when the state file of the scene has no 37th item or one
that reads as `0`, `init` leaves `useEnvMap` at `0` and `hasEnvMap` clear, and
`toggleLightSourceMode` then changes nothing. -/
theorem init_without_envMap (W : World) (o : Oracle) (width height : Int)
    (sceneFile : String) (s : Tracer)
    (hmap : W.envMapValid (chosenScene o sceneFile) = false)
    (hprev : s.hasEnvMap = false)
    (hfile : ∀ c, savedUseEnvMap s.disk (statePath (W.hashString (chosenScene o sceneFile)))
      = some c → c.toUInt W = 0) :
    (init W o width height sceneFile s).params.useEnvMap = 0
    ∧ (init W o width height sceneFile s).hasEnvMap = false
    ∧ toggleLightSourceMode (init W o width height sceneFile s)
        = init W o width height sceneFile s := by
  obtain ⟨h1, _, h3⟩ := init_of_invalid W o width height sceneFile s hmap
  have hl := loadState_useEnvMap W (beforeLoadState W o width height sceneFile s)
  have hd : (beforeLoadState W o width height sceneFile s).disk = s.disk := rfl
  have hh : (beforeLoadState W o width height sceneFile s).sceneHash
      = W.hashString (chosenScene o sceneFile) := rfl
  have h0 : (beforeLoadState W o width height sceneFile s).params.useEnvMap = 0 := rfl
  rw [hd, hh, h0] at hl
  refine ⟨?_, h3.trans hprev, ?_⟩
  · rw [h1, hl]
    cases hs : savedUseEnvMap s.disk (statePath (W.hashString (chosenScene o sceneFile))) with
    | none => rfl
    | some c => exact hfile c hs
  · simp [toggleLightSourceMode, h3, hprev]

/-- Witness of C11 as amended: the teapot is loaded on a tracer that never had an
environment map, once with a state file saved while `useEnvMap` was `0`, once without
a state file. -/
theorem init_without_envMap_witness :
    ((init exactWorld ⟨none, 0⟩ 800 600 "assets/teapot.ply" plainState).params.useEnvMap = 0
      ∧ (init exactWorld ⟨none, 0⟩ 800 600 "assets/teapot.ply" plainState).hasEnvMap = false
      ∧ toggleLightSourceMode (init exactWorld ⟨none, 0⟩ 800 600 "assets/teapot.ply" plainState)
          = init exactWorld ⟨none, 0⟩ 800 600 "assets/teapot.ply" plainState)
    ∧ ((init exactWorld ⟨none, 0⟩ 800 600 "assets/teapot.ply"
          { startState with hasEnvMap := false }).params.useEnvMap = 0
      ∧ (init exactWorld ⟨none, 0⟩ 800 600 "assets/teapot.ply"
          { startState with hasEnvMap := false }).hasEnvMap = false
      ∧ toggleLightSourceMode (init exactWorld ⟨none, 0⟩ 800 600 "assets/teapot.ply"
            { startState with hasEnvMap := false })
          = init exactWorld ⟨none, 0⟩ 800 600 "assets/teapot.ply"
            { startState with hasEnvMap := false }) :=
  ⟨init_without_envMap exactWorld ⟨none, 0⟩ 800 600 "assets/teapot.ply" plainState rfl rfl
      (by
        intro c hc
        have hsaved := saveState_disk exactWorld
          { startState with sceneHash := "assets/teapot.ply", params.useEnvMap := 0 } rfl
        have hpath : statePath (exactWorld.hashString (chosenScene ⟨none, 0⟩ "assets/teapot.ply"))
            = statePath "assets/teapot.ply" := rfl
        have hdisk : plainState.disk = (saveState exactWorld
            { startState with sceneHash := "assets/teapot.ply", params.useEnvMap := 0 }).disk :=
          rfl
        rw [savedUseEnvMap, hpath, hdisk, hsaved] at hc
        simp [stateItems, vecItems, Item.ofFlt, Item.ofUInt] at hc
        rw [← hc]
        rfl),
   init_without_envMap exactWorld ⟨none, 0⟩ 800 600 "assets/teapot.ply"
      { startState with hasEnvMap := false } rfl rfl
      (by
        intro c hc
        exact absurd hc (by simp [savedUseEnvMap, Disk.find, startState]))⟩

/-- C11 fails as stated, on a world where no scene has a valid environment map.  From the
start state, whose `hasEnvMap` is set by an earlier scene, `init` on the teapot leaves
`hasEnvMap` set, and `toggleLightSourceMode` then switches `useEnvMap` on.  From a tracer
whose `hasEnvMap` is clear but whose disk holds a state saved with `useEnvMap = 1`,
`init` leaves `useEnvMap` at `1`. -/
theorem init_without_envMap_counterexample :
    exactWorld.envMapValid (chosenScene ⟨none, 0⟩ "assets/teapot.ply") = false
    ∧ startState.hasEnvMap = true
    ∧ (init exactWorld ⟨none, 0⟩ 800 600 "assets/teapot.ply" startState).hasEnvMap = true
    ∧ (init exactWorld ⟨none, 0⟩ 800 600 "assets/teapot.ply" startState).params.useEnvMap = 0
    ∧ (toggleLightSourceMode
        (init exactWorld ⟨none, 0⟩ 800 600 "assets/teapot.ply" startState)).params.useEnvMap
        = 1
    ∧ freshState.hasEnvMap = false
    ∧ (init exactWorld ⟨none, 0⟩ 800 600 "assets/teapot.ply" freshState).hasEnvMap = false
    ∧ (init exactWorld ⟨none, 0⟩ 800 600 "assets/teapot.ply" freshState).params.useEnvMap
        = 1
    ∧ ¬ (∀ (W : World) (o : Oracle) (width height : Int) (sceneFile : String) (s : Tracer),
          W.envMapValid (chosenScene o sceneFile) = false →
          (init W o width height sceneFile s).params.useEnvMap = 0
          ∧ (init W o width height sceneFile s).hasEnvMap = false) := by
  obtain ⟨a1, a2, a3⟩ :=
    init_of_invalid exactWorld ⟨none, 0⟩ 800 600 "assets/teapot.ply" startState rfl
  obtain ⟨b1, _, b3⟩ :=
    init_of_invalid exactWorld ⟨none, 0⟩ 800 600 "assets/teapot.ply" freshState rfl
  have hl : loadState exactWorld
      (beforeLoadState exactWorld ⟨none, 0⟩ 800 600 "assets/teapot.ply" startState)
      = beforeLoadState exactWorld ⟨none, 0⟩ 800 600 "assets/teapot.ply" startState :=
    loadState_of_none exactWorld _ rfl
  rw [hl] at a1 a2
  have a1' : (init exactWorld ⟨none, 0⟩ 800 600 "assets/teapot.ply"
      startState).params.useEnvMap = 0 := a1
  have a2' : (init exactWorld ⟨none, 0⟩ 800 600 "assets/teapot.ply"
      startState).params.useAreaLight = 1 := a2
  have a3' : (init exactWorld ⟨none, 0⟩ 800 600 "assets/teapot.ply"
      startState).hasEnvMap = true := a3
  have hsaved := saveState_disk exactWorld
    { startState with sceneHash := "assets/teapot.ply" } rfl
  have b1' := loadState_useEnvMap_of_saved exactWorld
    { startState with sceneHash := "assets/teapot.ply" }
    (beforeLoadState exactWorld ⟨none, 0⟩ 800 600 "assets/teapot.ply" freshState) hsaved
  refine ⟨rfl, rfl, a3', a1', ?_, rfl, b3, b1.trans b1', ?_⟩
  · simp [toggleLightSourceMode, a1', a2', a3']
  · intro h
    have h' := (h exactWorld ⟨none, 0⟩ 800 600 "assets/teapot.ply" startState rfl).2
    rw [a3'] at h'
    exact absurd h' (by decide)

end Fluctus
